import Mathlib

/-
Verification of the rshim PCIe "live-fish" backend (rshim_pcie_lf.c).

The development is a shallow embedding of the C source into Lean: each C
function becomes a Lean function over an explicit simulation state `Sim`
containing a simulated hardware register file `Hw` (gateway registers,
byte-access-widget registers, the 64-bit register file reached through the
widget), a fault-injection schedule for the PCI configuration-space
primitives, and the per-device backend state (write counter, has_rshim).
-/

namespace RshimPcieLf

/-! ## Wire-protocol constants taken from rshim_pcie_lf.c -/

def BLUEFIELD1_DEVICE_ID : Nat := 0x0211
def BLUEFIELD2_DEVICE_ID : Nat := 0x0214

def MELLANOX_ADDR : Nat := 0x58
def MELLANOX_DATA : Nat := 0x5c
def MELLANOX_CAP_READ : Nat := 0x1

def TRIO_CR_GW_LOCK : Nat := 0xe38a0
def TRIO_CR_GW_LOCK_CPY : Nat := 0xe38a4
def TRIO_CR_GW_DATA_UPPER : Nat := 0xe38ac
def TRIO_CR_GW_DATA_LOWER : Nat := 0xe38b0
def TRIO_CR_GW_CTL : Nat := 0xe38b4
def TRIO_CR_GW_ADDR_UPPER : Nat := 0xe38b8
def TRIO_CR_GW_ADDR_LOWER : Nat := 0xe38bc
def TRIO_CR_GW_LOCK_ACQUIRED : Nat := 0x80000000
def TRIO_CR_GW_LOCK_RELEASE : Nat := 0x0
def TRIO_CR_GW_BUSY : Nat := 0x60000000
def TRIO_CR_GW_TRIGGER : Nat := 0xe0000000
def TRIO_CR_GW_READ_4BYTE : Nat := 0x6
def TRIO_CR_GW_WRITE_4BYTE : Nat := 0x2

def CRSPACE_RSH_CHANNEL1_BASE : Nat := 0x310000

/-! ## Constants from the missing header rshim.h

Modelled from the spec: the header rshim.h is not part of src/; the spec
describes these as fixed wire-protocol constants (a shared bounded-retry
constant, a channel base addressing formula adding a per-channel base that
is a multiple of the 0x10000 window visible in the source's address
masking, distinct widget register offsets, a pending bit, a read-trigger
bit and a size field, a boot-FIFO data register offset and a scratchpad
offset).  The exact numeric values are irrelevant to every claim; they only
need to be pairwise distinct, word-aligned and below 0x10000. -/

def LOCK_RETRY_CNT : Nat := 1000
def RSHIM_CHANNEL : Nat := 1

/-- Modelled from the spec: channel base addressing formula. -/
def RSH_CHANNEL_BASE (chan : Nat) : Nat := chan * 0x10000

def RSH_BOOT_FIFO_DATA : Nat := 0x408
def RSH_SCRATCHPAD : Nat := 0x320
def RSH_BYTE_ACC_CTL : Nat := 0x490
def RSH_BYTE_ACC_WDAT : Nat := 0x498
def RSH_BYTE_ACC_RDAT : Nat := 0x4a0
def RSH_BYTE_ACC_ADDR : Nat := 0x4a8
def RSH_BYTE_ACC_INTERLOCK : Nat := 0x4b0
def RSH_BYTE_ACC_PENDING : Nat := 0x2000000
def RSH_BYTE_ACC_READ_TRIGGER : Nat := 0x1000000
def RSH_BYTE_ACC_SIZE_4BYTE : Nat := 0x600

/-- errno values used by the source. -/
def EIO_ERR : Int := 5
def ENODEV : Int := 19
def ETIMEDOUT : Int := 110

/-- htonl / ntohl: 32-bit byte swap (little-endian host), written digitwise. -/
def htonl (x : Nat) : Nat :=
  (x % 256) * 16777216 + (x / 256 % 256) * 65536 +
    (x / 65536 % 256) * 256 + (x / 16777216 % 256)

def ntohl (x : Nat) : Nat := htonl x

/-! ## The simulated hardware register file

The hardware model is the environment the C code talks to through
pci_write_long / pci_read_long on the hidden capability:

* the Mellanox address/data capability pair (a write to MELLANOX_ADDR with
  the LSB set latches a CR-space read into the data register, with the LSB
  clear it commits the staged data register to CR space);
* the TRIO CR gateway registers (legacy revision): writing the trigger
  pattern to the lock register fires a 32-bit CR access at the latched
  address, carrying the data in network byte order;
* the BlueField-2 direct window: capability offsets 0x310000..0x31ffff
  alias the rshim channel-1 page;
* the rshim page itself: the Byte Access Widget registers (address latch,
  control with pending bit, write-data staging that commits a 64-bit write
  on the second word, read-data queue filled by a read trigger, and a
  test-and-set-on-read interlock), the boot FIFO (any address whose low 16
  bits equal the boot-FIFO data offset latches two 32-bit writes into one
  64-bit push) and a plain 32-bit backing store for everything else.

Ghost acquisition/release counters for the gateway lock and the widget
interlock record the locking protocol traffic; they are not readable by
the software. -/

structure Hw where
  devId : Nat
  /-- plain 32-bit CR-space cells not claimed by a modelled register -/
  cr32 : Nat → Nat
  /-- the 64-bit logical register file reached through the widget -/
  mem64 : Nat → Nat
  accAddr : Nat
  ctlVal : Nat
  wdatLo : Option Nat
  rdat : List Nat
  ilFree : Bool
  ilAcqCnt : Nat
  ilRelCnt : Nat
  gwLockVal : Nat
  gwAddr : Nat
  gwCtl : Nat
  gwData : Nat
  gwAcqCnt : Nat
  gwRelCnt : Nat
  fifoLo : Option Nat
  bootFifo : List Nat
  /-- MELLANOX_DATA capability register -/
  dataReg : Nat

/-- 32-bit read in the rshim register page (full flat address). -/
def crR (hw : Hw) (a : Nat) : Nat × Hw :=
  if a = RSH_CHANNEL_BASE RSHIM_CHANNEL + RSH_BYTE_ACC_CTL then
    (hw.ctlVal, hw)
  else if a = RSH_CHANNEL_BASE RSHIM_CHANNEL + RSH_BYTE_ACC_RDAT then
    (hw.rdat.headD 0, { hw with rdat := hw.rdat.tail })
  else if a = RSH_CHANNEL_BASE RSHIM_CHANNEL + RSH_BYTE_ACC_ADDR then
    (hw.accAddr, hw)
  else if a = RSH_CHANNEL_BASE RSHIM_CHANNEL + RSH_BYTE_ACC_INTERLOCK then
    if hw.ilFree then (1, { hw with ilFree := false, ilAcqCnt := hw.ilAcqCnt + 1 })
    else (0, hw)
  else (hw.cr32 a, hw)

/-- 32-bit write in the rshim register page (full flat address). -/
def crW (hw : Hw) (a v : Nat) : Hw :=
  if a = RSH_CHANNEL_BASE RSHIM_CHANNEL + RSH_BYTE_ACC_ADDR then
    { hw with accAddr := v }
  else if a = RSH_CHANNEL_BASE RSHIM_CHANNEL + RSH_BYTE_ACC_CTL then
    if v &&& RSH_BYTE_ACC_READ_TRIGGER ≠ 0 then
      { hw with ctlVal := v,
                rdat := [hw.mem64 hw.accAddr % 4294967296,
                         (hw.mem64 hw.accAddr >>> 32) % 4294967296] }
    else { hw with ctlVal := v }
  else if a = RSH_CHANNEL_BASE RSHIM_CHANNEL + RSH_BYTE_ACC_WDAT then
    match hw.wdatLo with
    | none => { hw with wdatLo := some v }
    | some lo =>
        { hw with wdatLo := none,
                  mem64 := Function.update hw.mem64 hw.accAddr (lo ||| v <<< 32) }
  else if a = RSH_CHANNEL_BASE RSHIM_CHANNEL + RSH_BYTE_ACC_INTERLOCK then
    { hw with ilFree := true, ilRelCnt := hw.ilRelCnt + 1 }
  else if a % 0x10000 = RSH_BOOT_FIFO_DATA then
    match hw.fifoLo with
    | none => { hw with fifoLo := some v }
    | some lo => { hw with fifoLo := none, bootFifo := hw.bootFifo ++ [lo ||| v <<< 32] }
  else { hw with cr32 := Function.update hw.cr32 a v }

/-- 32-bit read at a capability offset (the space pci_cap_read targets). -/
def capSpaceRead (hw : Hw) (a : Nat) : Nat × Hw :=
  if a = TRIO_CR_GW_LOCK then (hw.gwLockVal, hw)
  else if a = TRIO_CR_GW_DATA_LOWER then (hw.gwData, hw)
  else if CRSPACE_RSH_CHANNEL1_BASE ≤ a ∧ a < CRSPACE_RSH_CHANNEL1_BASE + 0x10000 then
    crR hw (a - CRSPACE_RSH_CHANNEL1_BASE + RSH_CHANNEL_BASE RSHIM_CHANNEL)
  else (hw.cr32 a, hw)

/-- 32-bit write at a capability offset.  A write of the trigger pattern to
the gateway lock register fires the latched CR transaction; the gateway
carries its data in network byte order. -/
def capSpaceWrite (hw : Hw) (a v : Nat) : Hw :=
  if a = TRIO_CR_GW_LOCK then
    if v = TRIO_CR_GW_TRIGGER then
      if hw.gwCtl = TRIO_CR_GW_READ_4BYTE then
        let (x, hw') := crR hw hw.gwAddr
        { hw' with gwData := htonl x, gwLockVal := TRIO_CR_GW_LOCK_ACQUIRED }
      else if hw.gwCtl = TRIO_CR_GW_WRITE_4BYTE then
        { crW hw hw.gwAddr (ntohl hw.gwData) with gwLockVal := TRIO_CR_GW_LOCK_ACQUIRED }
      else { hw with gwLockVal := TRIO_CR_GW_LOCK_ACQUIRED }
    else if v = TRIO_CR_GW_LOCK_ACQUIRED then
      { hw with gwLockVal := v, gwAcqCnt := hw.gwAcqCnt + 1 }
    else
      { hw with gwLockVal := v, gwRelCnt := hw.gwRelCnt + 1 }
  else if a = TRIO_CR_GW_ADDR_LOWER then { hw with gwAddr := v }
  else if a = TRIO_CR_GW_CTL then { hw with gwCtl := v }
  else if a = TRIO_CR_GW_DATA_LOWER then { hw with gwData := v }
  else if CRSPACE_RSH_CHANNEL1_BASE ≤ a ∧ a < CRSPACE_RSH_CHANNEL1_BASE + 0x10000 then
    crW hw (a - CRSPACE_RSH_CHANNEL1_BASE + RSH_CHANNEL_BASE RSHIM_CHANNEL) v
  else { hw with cr32 := Function.update hw.cr32 a v }

/-! ## The simulation state threaded through the embedded C functions -/

/-- One CR-space operation as issued by a crspace_rsh_gw_read / write call
(arguments as passed by the caller, the value truncated to its uint32_t
parameter type). -/
inductive CrEv where
  | rd (addr : Nat)
  | wr (addr value : Nat)
deriving DecidableEq

structure Sim where
  hw : Hw
  /-- fault-injection schedule: one entry consumed per PCI config-space
  access, `true` = that access fails on the bus ([] means fault-free). -/
  faults : List Bool
  /-- count of PCI config-space accesses performed -/
  pciOps : Nat
  /-- ghost trace of issued CR-space operations -/
  ctrace : List CrEv
  /-- struct rshim_backend: has_rshim flag -/
  has_rshim : Bool
  /-- struct rshim_pcie: write_count (u8) -/
  write_count : Nat

/-! ## Embedding of the C functions (same names, same structure) -/

/-- pci_read_long(pci_dev, off): returns data only, no error indication; a
bus fault yields an unspecified value (0xbadbad here). -/
def pci_read_long (s : Sim) (off : Nat) : Nat × Sim :=
  let fault := s.faults.headD false
  let s1 : Sim := { s with faults := s.faults.tail, pciOps := s.pciOps + 1 }
  if fault then (0xbadbad, s1)
  else if off = MELLANOX_DATA then (s1.hw.dataReg, s1)
  else (0, s1)

/-- pci_write_long(pci_dev, off, v): returns a negative rc on a bus fault;
the value parameter is a uint32_t. -/
def pci_write_long (s : Sim) (off v0 : Nat) : Int × Sim :=
  let v := v0 % 4294967296
  let fault := s.faults.headD false
  let s1 : Sim := { s with faults := s.faults.tail, pciOps := s.pciOps + 1 }
  if fault then (-EIO_ERR, s1)
  else if off = MELLANOX_DATA then
    (0, { s1 with hw := { s1.hw with dataReg := v } })
  else if off = MELLANOX_ADDR then
    if v % 2 = 1 then
      let (x, hw') := capSpaceRead s1.hw (v - 1)
      (0, { s1 with hw := { hw' with dataReg := x } })
    else
      (0, { s1 with hw := capSpaceWrite s1.hw v s1.hw.dataReg })
  else (0, s1)

/-- pci_cap_read, rshim_pcie_lf.c lines 58-74. -/
def pci_cap_read (s : Sim) (offset : Nat) : (Int × Nat) × Sim :=
  let (rc, s) := pci_write_long s MELLANOX_ADDR (offset ||| MELLANOX_CAP_READ)
  if rc < 0 then ((rc, 0), s)
  else
    let (x, s) := pci_read_long s MELLANOX_DATA
    ((0, x), s)

/-- pci_cap_write, lines 76-94. -/
def pci_cap_write (s : Sim) (offset value : Nat) : Int × Sim :=
  let (rc, s) := pci_write_long s MELLANOX_DATA value
  if rc < 0 then (rc, s)
  else
    let (rc, s) := pci_write_long s MELLANOX_ADDR offset
    if rc < 0 then (rc, s)
    else (0, s)

/-! Sequencing combinators for the C pattern "rc = f(...); if (rc) return".
Each takes the (rc, state) result of one step and the continuation
to run on success; the error case models the corresponding early exit of
the source function. -/

/-- plain early return: if (rc) return rc; -/
def seqRc (p : Int × Sim) (k : Sim → Int × Sim) : Int × Sim :=
  if p.1 ≠ 0 then p else k p.2

/-- early return rc from a function also delivering a value (left unset). -/
def seqRcV (p : Int × Sim) (k : Sim → (Int × Nat) × Sim) : (Int × Nat) × Sim :=
  if p.1 ≠ 0 then ((p.1, 0), p.2) else k p.2

theorem seqRc_ok (t : Sim) (k : Sim → Int × Sim) : seqRc (0, t) k = k t := by
  simp [seqRc]

theorem seqRc_err {rc : Int} (h : rc ≠ 0) (t : Sim) (k : Sim → Int × Sim) :
    seqRc (rc, t) k = (rc, t) := by
  simp [seqRc, h]

theorem seqRcV_ok (t : Sim) (k : Sim → (Int × Nat) × Sim) :
    seqRcV (0, t) k = k t := by
  simp [seqRcV]

theorem seqRcV_err {rc : Int} (h : rc ≠ 0) (t : Sim) (k : Sim → (Int × Nat) × Sim) :
    seqRcV (rc, t) k = ((rc, 0), t) := by
  simp [seqRcV, h]

/-- The do/while polling loop of trio_cr_gw_lock_acquire, lines 103-110,
unrolled on the remaining retry budget.  The C loop reads, fails the whole
call if the read failed, returns -ETIMEDOUT once ++retry exceeds
LOCK_RETRY_CNT (that check runs before the while condition, so the read
made with an exhausted budget can no longer succeed), and otherwise loops
while the acquired bit is set; on loop exit it claims the lock. -/
def trio_cr_gw_lock_acquire_go : Nat → Sim → Int × Sim :=
  Nat.rec
    (fun s =>
      let p := pci_cap_read s TRIO_CR_GW_LOCK
      if p.1.1 ≠ 0 then (p.1.1, p.2) else (-ETIMEDOUT, p.2))
    (fun _ ih s =>
      let p := pci_cap_read s TRIO_CR_GW_LOCK
      if p.1.1 ≠ 0 then (p.1.1, p.2)
      else if p.1.2 &&& TRIO_CR_GW_LOCK_ACQUIRED ≠ 0 then ih p.2
      else
        let q := pci_cap_write p.2 TRIO_CR_GW_LOCK TRIO_CR_GW_LOCK_ACQUIRED
        if q.1 ≠ 0 then (q.1, q.2) else (0, q.2))

theorem trio_cr_gw_lock_acquire_go_succ (f : Nat) (s : Sim) :
    trio_cr_gw_lock_acquire_go (f + 1) s =
      (let p := pci_cap_read s TRIO_CR_GW_LOCK
       if p.1.1 ≠ 0 then (p.1.1, p.2)
       else if p.1.2 &&& TRIO_CR_GW_LOCK_ACQUIRED ≠ 0 then
         trio_cr_gw_lock_acquire_go f p.2
       else
         let q := pci_cap_write p.2 TRIO_CR_GW_LOCK TRIO_CR_GW_LOCK_ACQUIRED
         if q.1 ≠ 0 then (q.1, q.2) else (0, q.2)) := rfl

theorem trio_cr_gw_lock_acquire_go_zero (s : Sim) :
    trio_cr_gw_lock_acquire_go 0 s =
      (let p := pci_cap_read s TRIO_CR_GW_LOCK
       if p.1.1 ≠ 0 then (p.1.1, p.2) else (-ETIMEDOUT, p.2)) := rfl

/-- trio_cr_gw_lock_acquire, lines 97-118. -/
def trio_cr_gw_lock_acquire (s : Sim) : Int × Sim :=
  trio_cr_gw_lock_acquire_go LOCK_RETRY_CNT s

/-- trio_cr_gw_lock_release, lines 120-128. -/
def trio_cr_gw_lock_release (s : Sim) : Int × Sim :=
  pci_cap_write s TRIO_CR_GW_LOCK TRIO_CR_GW_LOCK_RELEASE

/-- Tail of the gateway read path: check the data-read rc, convert byte
order, then release the gateway lock (lines 166-178). -/
def gwReadTail (q : (Int × Nat) × Sim) : (Int × Nat) × Sim :=
  if q.1.1 ≠ 0 then q
  else
    let x := ntohl q.1.2
    let p := trio_cr_gw_lock_release q.2
    if p.1 ≠ 0 then ((p.1, x), p.2) else ((0, x), p.2)

/-- crspace_rsh_gw_read, lines 133-179.  The addr parameter is logged to
the ghost CR-space trace as issued. -/
def crspace_rsh_gw_read (s : Sim) (addr : Nat) : (Int × Nat) × Sim :=
  let s : Sim := { s with ctrace := s.ctrace ++ [CrEv.rd addr] }
  if s.hw.devId = BLUEFIELD2_DEVICE_ID then
    pci_cap_read s ((addr &&& 0xffff) + CRSPACE_RSH_CHANNEL1_BASE)
  else
    let addr := addr + RSH_CHANNEL_BASE RSHIM_CHANNEL
    seqRcV (trio_cr_gw_lock_acquire s) fun s =>
    seqRcV (pci_cap_write s TRIO_CR_GW_ADDR_LOWER addr) fun s =>
    seqRcV (pci_cap_write s TRIO_CR_GW_CTL TRIO_CR_GW_READ_4BYTE) fun s =>
    seqRcV (pci_cap_write s TRIO_CR_GW_LOCK TRIO_CR_GW_TRIGGER) fun s =>
    gwReadTail (pci_cap_read s TRIO_CR_GW_DATA_LOWER)

/-- crspace_rsh_gw_write, lines 181-230.  The value parameter is a
uint32_t. -/
def crspace_rsh_gw_write (s : Sim) (addr value0 : Nat) : Int × Sim :=
  let value := value0 % 4294967296
  let s : Sim := { s with ctrace := s.ctrace ++ [CrEv.wr addr value] }
  if s.hw.devId = BLUEFIELD2_DEVICE_ID then
    pci_cap_write s ((addr &&& 0xffff) + CRSPACE_RSH_CHANNEL1_BASE) value
  else
    let addr := if (addr &&& 0xffff) ≠ RSH_BOOT_FIFO_DATA then
                  addr + RSH_CHANNEL_BASE RSHIM_CHANNEL
                else addr
    seqRc (trio_cr_gw_lock_acquire s) fun s =>
    seqRc (pci_cap_write s TRIO_CR_GW_DATA_LOWER (htonl value)) fun s =>
    seqRc (pci_cap_write s TRIO_CR_GW_ADDR_LOWER addr) fun s =>
    seqRc (pci_cap_write s TRIO_CR_GW_CTL TRIO_CR_GW_WRITE_4BYTE) fun s =>
    seqRc (pci_cap_write s TRIO_CR_GW_LOCK TRIO_CR_GW_TRIGGER) fun s =>
    seqRc (trio_cr_gw_lock_release s) fun s =>
    (0, s)

/-- The do/while loop of rshim_byte_acc_pending_wait, lines 238-245, on the
remaining retry budget (retry is checked after the read, before the while
condition). -/
def rshim_byte_acc_pending_wait_go : Nat → Sim → Int × Sim :=
  Nat.rec
    (fun s =>
      let p := crspace_rsh_gw_read s RSH_BYTE_ACC_CTL
      if p.1.1 ≠ 0 then (p.1.1, p.2) else (-ETIMEDOUT, p.2))
    (fun _ ih s =>
      let p := crspace_rsh_gw_read s RSH_BYTE_ACC_CTL
      if p.1.1 ≠ 0 then (p.1.1, p.2)
      else if p.1.2 &&& RSH_BYTE_ACC_PENDING ≠ 0 then ih p.2
      else (0, p.2))

theorem rshim_byte_acc_pending_wait_go_succ (f : Nat) (s : Sim) :
    rshim_byte_acc_pending_wait_go (f + 1) s =
      (let p := crspace_rsh_gw_read s RSH_BYTE_ACC_CTL
       if p.1.1 ≠ 0 then (p.1.1, p.2)
       else if p.1.2 &&& RSH_BYTE_ACC_PENDING ≠ 0 then
         rshim_byte_acc_pending_wait_go f p.2
       else (0, p.2)) := rfl

theorem rshim_byte_acc_pending_wait_go_zero (s : Sim) :
    rshim_byte_acc_pending_wait_go 0 s =
      (let p := crspace_rsh_gw_read s RSH_BYTE_ACC_CTL
       if p.1.1 ≠ 0 then (p.1.1, p.2) else (-ETIMEDOUT, p.2)) := rfl

/-- rshim_byte_acc_pending_wait, lines 233-248. -/
def rshim_byte_acc_pending_wait (s : Sim) : Int × Sim :=
  rshim_byte_acc_pending_wait_go LOCK_RETRY_CNT s

/-- The do/while loop of rshim_byte_acc_lock_acquire, lines 256-264
(here ++retry is checked before the read, so at most LOCK_RETRY_CNT reads
happen). -/
def rshim_byte_acc_lock_acquire_go : Nat → Sim → Int × Sim :=
  Nat.rec
    (fun s => (-ETIMEDOUT, s))
    (fun _ ih s =>
      let p := crspace_rsh_gw_read s RSH_BYTE_ACC_INTERLOCK
      if p.1.1 ≠ 0 then (p.1.1, p.2)
      else if p.1.2 &&& 0x1 = 0 then ih p.2
      else (0, p.2))

theorem rshim_byte_acc_lock_acquire_go_succ (f : Nat) (s : Sim) :
    rshim_byte_acc_lock_acquire_go (f + 1) s =
      (let p := crspace_rsh_gw_read s RSH_BYTE_ACC_INTERLOCK
       if p.1.1 ≠ 0 then (p.1.1, p.2)
       else if p.1.2 &&& 0x1 = 0 then rshim_byte_acc_lock_acquire_go f p.2
       else (0, p.2)) := rfl

theorem rshim_byte_acc_lock_acquire_go_zero (s : Sim) :
    rshim_byte_acc_lock_acquire_go 0 s = (-ETIMEDOUT, s) := rfl

/-- rshim_byte_acc_lock_acquire, lines 251-267. -/
def rshim_byte_acc_lock_acquire (s : Sim) : Int × Sim :=
  rshim_byte_acc_lock_acquire_go LOCK_RETRY_CNT s

/-- rshim_byte_acc_lock_release, lines 270-274. -/
def rshim_byte_acc_lock_release (s : Sim) : Int × Sim :=
  crspace_rsh_gw_write s RSH_BYTE_ACC_INTERLOCK 0

/-- The exit_read label of rshim_byte_acc_read, lines 336-341: on the newer
revision rc is overwritten by the interlock release's result. -/
def rshim_byte_acc_read_exit (rc : Int) (res : Nat) (s : Sim) : (Int × Nat) × Sim :=
  if s.hw.devId = BLUEFIELD2_DEVICE_ID then
    let p := rshim_byte_acc_lock_release s
    ((p.1, res), p.2)
  else ((rc, res), s)

/-- if (rc) goto exit_read; -/
def rdStep (p : Int × Sim) (k : Sim → (Int × Nat) × Sim) : (Int × Nat) × Sim :=
  if p.1 ≠ 0 then rshim_byte_acc_read_exit p.1 0 p.2 else k p.2

/-- if (rc) goto exit_read; for a value-returning step. -/
def rdStepV (p : (Int × Nat) × Sim) (k : Nat → Sim → (Int × Nat) × Sim) :
    (Int × Nat) × Sim :=
  if p.1.1 ≠ 0 then rshim_byte_acc_read_exit p.1.1 0 p.2 else k p.1.2 p.2

theorem rdStep_ok (t : Sim) (k : Sim → (Int × Nat) × Sim) :
    rdStep (0, t) k = k t := by
  simp [rdStep]

theorem rdStep_err {rc : Int} (h : rc ≠ 0) (t : Sim) (k : Sim → (Int × Nat) × Sim) :
    rdStep (rc, t) k = rshim_byte_acc_read_exit rc 0 t := by
  simp [rdStep, h]

theorem rdStepV_ok (v : Nat) (t : Sim) (k : Nat → Sim → (Int × Nat) × Sim) :
    rdStepV ((0, v), t) k = k v t := by
  simp [rdStepV]

theorem rdStepV_err {rc : Int} (h : rc ≠ 0) (v : Nat) (t : Sim)
    (k : Nat → Sim → (Int × Nat) × Sim) :
    rdStepV ((rc, v), t) k = rshim_byte_acc_read_exit rc 0 t := by
  simp [rdStepV, h]

/-- rshim_byte_acc_read, lines 280-342.  On error exits *result is never
assigned; the model returns 0 there.  Written with the sequencing
combinators: step order, early exits and the final combination
low ||| high <<< 32 follow the source line by line. -/
def rshim_byte_acc_read (s : Sim) (addr : Nat) : (Int × Nat) × Sim :=
  seqRcV (rshim_byte_acc_pending_wait s) fun s =>
  seqRcV (if s.hw.devId = BLUEFIELD2_DEVICE_ID then rshim_byte_acc_lock_acquire s
           else (0, s)) fun s =>
  rdStep (crspace_rsh_gw_write s RSH_BYTE_ACC_ADDR addr) fun s =>
  rdStep (crspace_rsh_gw_write s RSH_BYTE_ACC_CTL
            (RSH_BYTE_ACC_READ_TRIGGER ||| RSH_BYTE_ACC_SIZE_4BYTE)) fun s =>
  rdStep (rshim_byte_acc_pending_wait s) fun s =>
  rdStepV (crspace_rsh_gw_read s RSH_BYTE_ACC_RDAT) fun lo s =>
  rdStep (rshim_byte_acc_pending_wait s) fun s =>
  rdStepV (crspace_rsh_gw_read s RSH_BYTE_ACC_RDAT) fun hi s =>
  rshim_byte_acc_read_exit 0 (lo ||| hi <<< 32) s

/-- The exit_write label of rshim_byte_acc_write, lines 382-386. -/
def rshim_byte_acc_write_exit (rc : Int) (s : Sim) : Int × Sim :=
  if s.hw.devId = BLUEFIELD2_DEVICE_ID then rshim_byte_acc_lock_release s
  else (rc, s)

/-- if (rc) goto exit_write; -/
def wrStep (p : Int × Sim) (k : Sim → Int × Sim) : Int × Sim :=
  if p.1 ≠ 0 then rshim_byte_acc_write_exit p.1 p.2 else k p.2

theorem wrStep_ok (t : Sim) (k : Sim → Int × Sim) : wrStep (0, t) k = k t := by
  simp [wrStep]

theorem wrStep_err {rc : Int} (h : rc ≠ 0) (t : Sim) (k : Sim → Int × Sim) :
    wrStep (rc, t) k = rshim_byte_acc_write_exit rc t := by
  simp [wrStep, h]

/-- rshim_byte_acc_write, lines 344-387, with the sequencing combinators.
Note that a failure of the RSH_BYTE_ACC_ADDR write returns directly
(line 359, hence seqRc), bypassing exit_write, while all later failures go
through exit_write (wrStep). -/
def rshim_byte_acc_write (s : Sim) (addr value : Nat) : Int × Sim :=
  seqRc (if s.hw.devId = BLUEFIELD2_DEVICE_ID then rshim_byte_acc_lock_acquire s
         else (0, s)) fun s =>
  seqRc (crspace_rsh_gw_write s RSH_BYTE_ACC_ADDR addr) fun s =>
  wrStep (crspace_rsh_gw_write s RSH_BYTE_ACC_CTL RSH_BYTE_ACC_SIZE_4BYTE) fun s =>
  wrStep (crspace_rsh_gw_write s RSH_BYTE_ACC_WDAT (value % 4294967296)) fun s =>
  wrStep (rshim_byte_acc_pending_wait s) fun s =>
  (fun p => rshim_byte_acc_write_exit p.1 p.2)
    (crspace_rsh_gw_write s RSH_BYTE_ACC_WDAT ((value >>> 32) % 4294967296))

/-- rshim_boot_fifo_write, lines 396-412. -/
def rshim_boot_fifo_write (s : Sim) (addr value : Nat) : Int × Sim :=
  seqRc (crspace_rsh_gw_write s addr (value % 4294967296)) fun s =>
  seqRc (crspace_rsh_gw_write s addr ((value >>> 32) % 4294967296)) fun s =>
  (0, s)

/-- rshim_pcie_read, lines 415-430. -/
def rshim_pcie_read (s : Sim) (chan addr : Nat) : (Int × Nat) × Sim :=
  if s.has_rshim then
    let s : Sim := { s with write_count := 0 }
    rshim_byte_acc_read s (RSH_CHANNEL_BASE chan + addr)
  else ((-ENODEV, 0), s)

/-- rshim_pcie_write, lines 432-467.  The value parameter is a uint64_t;
the drain read's return value is discarded exactly as in the source. -/
def rshim_pcie_write (s : Sim) (chan addr value0 : Nat) : Int × Sim :=
  let value := value0 % 18446744073709551616
  let is_boot_stream := addr = RSH_BOOT_FIFO_DATA
  if s.has_rshim then
    let s : Sim :=
      if s.hw.devId = BLUEFIELD1_DEVICE_ID then
        let s := if s.write_count = 7 then (rshim_pcie_read s chan RSH_SCRATCHPAD).2 else s
        { s with write_count := (s.write_count + 1) % 256 }
      else s
    if is_boot_stream then
      rshim_boot_fifo_write s (RSH_CHANNEL_BASE chan + addr) value
    else
      rshim_byte_acc_write s (RSH_CHANNEL_BASE chan + addr) value
  else (-ENODEV, s)

/-! ## Initial simulation state (fresh device, idle hardware) -/

def initHw (devId : Nat) : Hw :=
  { devId := devId, cr32 := fun _ => 0, mem64 := fun _ => 0, accAddr := 0,
    ctlVal := 0, wdatLo := none, rdat := [], ilFree := true, ilAcqCnt := 0,
    ilRelCnt := 0, gwLockVal := 0, gwAddr := 0, gwCtl := 0, gwData := 0,
    gwAcqCnt := 0, gwRelCnt := 0, fifoLo := none, bootFifo := [], dataReg := 0 }

def initSim (devId : Nat) (faults : List Bool) : Sim :=
  { hw := initHw devId, faults := faults, pciOps := 0, ctrace := [],
    has_rshim := true, write_count := 0 }

/-! ## Spec-modelled definition used by claim C9

The specification describes the successful 8-byte widget write as the
sequence: interlock acquire, address write, control write, a pending-bit
wait, low WDAT write, a second pending-bit wait, high WDAT write, interlock
release (the two interlock steps on the newer revision).  Each pending-bit
wait observes the control register at least once, modelled here as one
control-register read. -/

def c9_spec_write_sequence (addr value : Nat) : List CrEv :=
  [CrEv.rd RSH_BYTE_ACC_INTERLOCK,
   CrEv.wr RSH_BYTE_ACC_ADDR (addr % 4294967296),
   CrEv.wr RSH_BYTE_ACC_CTL RSH_BYTE_ACC_SIZE_4BYTE,
   CrEv.rd RSH_BYTE_ACC_CTL,
   CrEv.wr RSH_BYTE_ACC_WDAT (value % 4294967296),
   CrEv.rd RSH_BYTE_ACC_CTL,
   CrEv.wr RSH_BYTE_ACC_WDAT ((value >>> 32) % 4294967296),
   CrEv.wr RSH_BYTE_ACC_INTERLOCK 0]

/-! ## Dispatcher call sequences (for the caller-serialized API) -/

/-- One dispatcher call as made by the caller through the backend's
read_rshim / write_rshim entry points. -/
inductive BackendOp where
  | rd (chan addr : Nat)
  | wr (chan addr value : Nat)

def runOp (s : Sim) : BackendOp → Sim
  | .rd chan addr => (rshim_pcie_read s chan addr).2
  | .wr chan addr value => (rshim_pcie_write s chan addr value).2

def runOps (s : Sim) : List BackendOp → Sim
  | [] => s
  | op :: ops => runOps (runOp s op) ops

/-! ## Arithmetic helpers -/

theorem or_one_of_even {a : Nat} (h : a % 2 = 0) : a ||| 1 = a + 1 := by
  apply Nat.eq_of_testBit_eq
  intro i
  cases i with
  | zero =>
    simp only [Nat.testBit_or, Nat.testBit_zero]
    have h1 : (a + 1) % 2 = 1 := by omega
    simp [h, h1]
  | succ i =>
    have h1 : Nat.testBit 1 (i + 1) = false := by
      rw [Nat.testBit_add_one]
      simp
    rw [Nat.testBit_or, h1, Bool.or_false, Nat.testBit_add_one, Nat.testBit_add_one]
    have h2 : (a + 1) / 2 = a / 2 := by omega
    rw [h2]

theorem split_join {x : Nat} (h : x < 18446744073709551616) :
    x % 4294967296 ||| ((x >>> 32) % 4294967296) <<< 32 = x := by
  have e32 : (4294967296 : Nat) = 2 ^ 32 := by norm_num
  rw [e32]
  apply Nat.eq_of_testBit_eq
  intro i
  rw [Nat.testBit_or, Nat.testBit_shiftLeft, Nat.testBit_mod_two_pow]
  by_cases hi : i < 32
  · have h32 : ¬ 32 ≤ i := by omega
    simp [hi, h32]
  · have h32 : 32 ≤ i := by omega
    rw [Nat.testBit_mod_two_pow, Nat.testBit_shiftRight]
    by_cases hi64 : i < 64
    · have ha : i - 32 < 32 := by omega
      have hb : 32 + (i - 32) = i := by omega
      simp [hi, h32, ha, hb]
    · have ha : ¬ (i - 32 < 32) := by omega
      have hx : x < 2 ^ i := by
        calc x < 2 ^ 64 := by omega
        _ ≤ 2 ^ i := Nat.pow_le_pow_right (by omega) (by omega)
      simp [hi, h32, ha, Nat.testBit_lt_two_pow hx]

theorem htonl_lt (x : Nat) : htonl x < 4294967296 := by
  unfold htonl
  omega

theorem htonl_mod (x : Nat) : htonl x % 4294967296 = htonl x :=
  Nat.mod_eq_of_lt (htonl_lt x)

theorem htonl_digits {a b c d : Nat} (ha : a < 256) (hb : b < 256) (hc : c < 256)
    (hd : d < 256) :
    htonl (a + 256 * b + 65536 * c + 16777216 * d)
      = d + 256 * c + 65536 * b + 16777216 * a := by
  unfold htonl
  have h1 : (a + 256 * b + 65536 * c + 16777216 * d) % 256 = a := by omega
  have h2 : (a + 256 * b + 65536 * c + 16777216 * d) / 256 % 256 = b := by omega
  have h3 : (a + 256 * b + 65536 * c + 16777216 * d) / 65536 % 256 = c := by omega
  have h4 : (a + 256 * b + 65536 * c + 16777216 * d) / 16777216 % 256 = d := by omega
  rw [h1, h2, h3, h4]
  ring

theorem ntohl_htonl (x : Nat) : ntohl (htonl (x % 4294967296)) = x % 4294967296 := by
  obtain ⟨a, b, c, d, ha, hb, hc, hd, hx⟩ :
      ∃ a b c d, a < 256 ∧ b < 256 ∧ c < 256 ∧ d < 256 ∧
        x % 4294967296 = a + 256 * b + 65536 * c + 16777216 * d :=
    ⟨x % 4294967296 % 256, x % 4294967296 / 256 % 256, x % 4294967296 / 65536 % 256,
     x % 4294967296 / 16777216 % 256, by omega, by omega, by omega, by omega, by omega⟩
  rw [hx, htonl_digits ha hb hc hd]
  unfold ntohl
  rw [htonl_digits hd hc hb ha]

theorem modmod32 (x : Nat) : x % 4294967296 % 4294967296 = x % 4294967296 := by
  omega

theorem mod64_32 (x : Nat) : x % 18446744073709551616 % 4294967296 = x % 4294967296 := by
  omega

theorem shift_of_mod64 (x : Nat) :
    (x % 18446744073709551616) >>> 32 = (x >>> 32) % 4294967296 := by
  rw [Nat.shiftRight_eq_div_pow, Nat.shiftRight_eq_div_pow]
  have e32 : (2 : Nat) ^ 32 = 4294967296 := by norm_num
  rw [e32]
  omega

theorem chan_base_mask (chan off : Nat) (h : off < 65536) :
    (RSH_CHANNEL_BASE chan + off) &&& 0xffff = off := by
  have e : (0xffff : Nat) = 2 ^ 16 - 1 := by norm_num
  rw [e, Nat.and_pow_two_sub_one_eq_mod]
  have e2 : (2 : Nat) ^ 16 = 65536 := by norm_num
  rw [e2]
  unfold RSH_CHANNEL_BASE
  omega

theorem boot_addr_mod (chan : Nat) :
    (RSH_CHANNEL_BASE chan + RSH_BOOT_FIFO_DATA) % 4294967296 % 65536
      = RSH_BOOT_FIFO_DATA := by
  unfold RSH_CHANNEL_BASE RSH_BOOT_FIFO_DATA
  omega

theorem ntohl_htonl_of_lt {x : Nat} (h : x < 4294967296) : ntohl (htonl x) = x := by
  have h1 := ntohl_htonl x
  rwa [Nat.mod_eq_of_lt h] at h1

theorem and_mask_mod (a : Nat) : a &&& 0xffff = a % 65536 := by
  have e : (0xffff : Nat) = 2 ^ 16 - 1 := by norm_num
  rw [e, Nat.and_pow_two_sub_one_eq_mod]

/-- crW at a boot-FIFO aliased address (low 16 bits equal the boot-FIFO
data offset): latch or push. -/
theorem crW_boot (hw : Hw) (a v : Nat) (h : a % 65536 = RSH_BOOT_FIFO_DATA) :
    crW hw a v =
      (match hw.fifoLo with
       | none => { hw with fifoLo := some v }
       | some lo =>
           { hw with fifoLo := none, bootFifo := hw.bootFifo ++ [lo ||| v <<< 32] }) := by
  have h1 : a ≠ RSH_CHANNEL_BASE RSHIM_CHANNEL + RSH_BYTE_ACC_ADDR := by
    intro he
    rw [he] at h
    simp [RSH_CHANNEL_BASE, RSHIM_CHANNEL, RSH_BYTE_ACC_ADDR, RSH_BOOT_FIFO_DATA] at h
  have h2 : a ≠ RSH_CHANNEL_BASE RSHIM_CHANNEL + RSH_BYTE_ACC_CTL := by
    intro he
    rw [he] at h
    simp [RSH_CHANNEL_BASE, RSHIM_CHANNEL, RSH_BYTE_ACC_CTL, RSH_BOOT_FIFO_DATA] at h
  have h3 : a ≠ RSH_CHANNEL_BASE RSHIM_CHANNEL + RSH_BYTE_ACC_WDAT := by
    intro he
    rw [he] at h
    simp [RSH_CHANNEL_BASE, RSHIM_CHANNEL, RSH_BYTE_ACC_WDAT, RSH_BOOT_FIFO_DATA] at h
  have h4 : a ≠ RSH_CHANNEL_BASE RSHIM_CHANNEL + RSH_BYTE_ACC_INTERLOCK := by
    intro he
    rw [he] at h
    simp [RSH_CHANNEL_BASE, RSHIM_CHANNEL, RSH_BYTE_ACC_INTERLOCK, RSH_BOOT_FIFO_DATA] at h
  have h5 : a % 0x10000 = RSH_BOOT_FIFO_DATA := h
  rw [crW, if_neg h1, if_neg h2, if_neg h3, if_neg h4, if_pos h5]

/-! ## Fault-free single-operation lemmas (capability level) -/

theorem cap_rd_lock (s : Sim) (hff : s.faults = []) :
    pci_cap_read s TRIO_CR_GW_LOCK =
      ((0, s.hw.gwLockVal),
       { s with hw := { s.hw with dataReg := s.hw.gwLockVal },
                faults := [], pciOps := s.pciOps + 2 }) := by
  simp [pci_cap_read, pci_write_long, pci_read_long, capSpaceRead, hff,
    MELLANOX_ADDR, MELLANOX_DATA, MELLANOX_CAP_READ, TRIO_CR_GW_LOCK,
    TRIO_CR_GW_DATA_LOWER, Nat.add_assoc]

theorem gw_acquire_free (s : Sim) (hff : s.faults = [])
    (hlock : s.hw.gwLockVal = 0) :
    trio_cr_gw_lock_acquire s =
      (0, { s with
            hw := { s.hw with
                    dataReg := 2147483648,
                    gwLockVal := 2147483648,
                    gwAcqCnt := s.hw.gwAcqCnt + 1 },
            faults := [],
            pciOps := s.pciOps + 4 }) := by
  rw [show trio_cr_gw_lock_acquire s
        = trio_cr_gw_lock_acquire_go (999 + 1) s from rfl,
      trio_cr_gw_lock_acquire_go_succ, cap_rd_lock s hff]
  simp [pci_cap_write, pci_write_long, capSpaceWrite, hlock,
    MELLANOX_ADDR, MELLANOX_DATA, TRIO_CR_GW_LOCK, TRIO_CR_GW_LOCK_ACQUIRED,
    TRIO_CR_GW_TRIGGER, TRIO_CR_GW_ADDR_LOWER, TRIO_CR_GW_CTL,
    TRIO_CR_GW_DATA_LOWER, Nat.add_assoc]

/-! ## Fault-free single CR-space operation lemmas, BlueField-2 window path -/

theorem bf2_wr_acc_addr (s : Sim) (v : Nat)
    (hdev : s.hw.devId = BLUEFIELD2_DEVICE_ID) (hff : s.faults = []) :
    crspace_rsh_gw_write s RSH_BYTE_ACC_ADDR v =
      (0, { s with
            hw := { s.hw with
                    accAddr := v % 4294967296,
                    dataReg := v % 4294967296 },
            faults := [],
            pciOps := s.pciOps + 2,
            ctrace := s.ctrace ++ [CrEv.wr RSH_BYTE_ACC_ADDR (v % 4294967296)] }) := by
  simp +decide [crspace_rsh_gw_write, pci_cap_write, pci_write_long, capSpaceWrite,
    crW, hdev, hff, modmod32, Nat.add_assoc, and_mask_mod,
    CRSPACE_RSH_CHANNEL1_BASE, RSH_CHANNEL_BASE,
    RSHIM_CHANNEL, RSH_BOOT_FIFO_DATA, RSH_BYTE_ACC_ADDR, RSH_BYTE_ACC_CTL,
    RSH_BYTE_ACC_WDAT, RSH_BYTE_ACC_INTERLOCK, MELLANOX_ADDR, MELLANOX_DATA,
    TRIO_CR_GW_LOCK, TRIO_CR_GW_ADDR_LOWER, TRIO_CR_GW_CTL, TRIO_CR_GW_DATA_LOWER,
    TRIO_CR_GW_TRIGGER, TRIO_CR_GW_LOCK_ACQUIRED, BLUEFIELD2_DEVICE_ID]

theorem bf2_wr_ctl_size (s : Sim)
    (hdev : s.hw.devId = BLUEFIELD2_DEVICE_ID) (hff : s.faults = []) :
    crspace_rsh_gw_write s RSH_BYTE_ACC_CTL RSH_BYTE_ACC_SIZE_4BYTE =
      (0, { s with
            hw := { s.hw with
                    ctlVal := 1536,
                    dataReg := 1536 },
            faults := [],
            pciOps := s.pciOps + 2,
            ctrace := s.ctrace ++ [CrEv.wr RSH_BYTE_ACC_CTL 1536] }) := by
  simp +decide [crspace_rsh_gw_write, pci_cap_write, pci_write_long, capSpaceWrite,
    crW, hdev, hff, modmod32, Nat.add_assoc, and_mask_mod,
    CRSPACE_RSH_CHANNEL1_BASE, RSH_CHANNEL_BASE,
    RSHIM_CHANNEL, RSH_BOOT_FIFO_DATA, RSH_BYTE_ACC_ADDR, RSH_BYTE_ACC_CTL,
    RSH_BYTE_ACC_WDAT, RSH_BYTE_ACC_INTERLOCK, RSH_BYTE_ACC_READ_TRIGGER,
    RSH_BYTE_ACC_SIZE_4BYTE, MELLANOX_ADDR, MELLANOX_DATA,
    TRIO_CR_GW_LOCK, TRIO_CR_GW_ADDR_LOWER, TRIO_CR_GW_CTL, TRIO_CR_GW_DATA_LOWER,
    TRIO_CR_GW_TRIGGER, TRIO_CR_GW_LOCK_ACQUIRED, BLUEFIELD2_DEVICE_ID]

theorem bf2_wr_ctl_trig (s : Sim)
    (hdev : s.hw.devId = BLUEFIELD2_DEVICE_ID) (hff : s.faults = []) :
    crspace_rsh_gw_write s RSH_BYTE_ACC_CTL 16778752 =
      (0, { s with
            hw := { s.hw with
                    ctlVal := 16778752,
                    rdat := [s.hw.mem64 s.hw.accAddr % 4294967296,
                             (s.hw.mem64 s.hw.accAddr >>> 32) % 4294967296],
                    dataReg := 16778752 },
            faults := [],
            pciOps := s.pciOps + 2,
            ctrace := s.ctrace ++ [CrEv.wr RSH_BYTE_ACC_CTL 16778752] }) := by
  simp +decide [crspace_rsh_gw_write, pci_cap_write, pci_write_long, capSpaceWrite,
    crW, hdev, hff, modmod32, Nat.add_assoc, and_mask_mod,
    CRSPACE_RSH_CHANNEL1_BASE, RSH_CHANNEL_BASE,
    RSHIM_CHANNEL, RSH_BOOT_FIFO_DATA, RSH_BYTE_ACC_ADDR, RSH_BYTE_ACC_CTL,
    RSH_BYTE_ACC_WDAT, RSH_BYTE_ACC_INTERLOCK, RSH_BYTE_ACC_READ_TRIGGER,
    MELLANOX_ADDR, MELLANOX_DATA,
    TRIO_CR_GW_LOCK, TRIO_CR_GW_ADDR_LOWER, TRIO_CR_GW_CTL, TRIO_CR_GW_DATA_LOWER,
    TRIO_CR_GW_TRIGGER, TRIO_CR_GW_LOCK_ACQUIRED, BLUEFIELD2_DEVICE_ID]

theorem bf2_wr_wdat_stage (s : Sim) (v : Nat)
    (hdev : s.hw.devId = BLUEFIELD2_DEVICE_ID) (hff : s.faults = [])
    (hwl : s.hw.wdatLo = none) :
    crspace_rsh_gw_write s RSH_BYTE_ACC_WDAT v =
      (0, { s with
            hw := { s.hw with
                    wdatLo := some (v % 4294967296),
                    dataReg := v % 4294967296 },
            faults := [],
            pciOps := s.pciOps + 2,
            ctrace := s.ctrace ++ [CrEv.wr RSH_BYTE_ACC_WDAT (v % 4294967296)] }) := by
  simp +decide [crspace_rsh_gw_write, pci_cap_write, pci_write_long, capSpaceWrite,
    crW, hdev, hff, hwl, modmod32, Nat.add_assoc, and_mask_mod,
    CRSPACE_RSH_CHANNEL1_BASE, RSH_CHANNEL_BASE,
    RSHIM_CHANNEL, RSH_BOOT_FIFO_DATA, RSH_BYTE_ACC_ADDR, RSH_BYTE_ACC_CTL,
    RSH_BYTE_ACC_WDAT, RSH_BYTE_ACC_INTERLOCK, MELLANOX_ADDR, MELLANOX_DATA,
    TRIO_CR_GW_LOCK, TRIO_CR_GW_ADDR_LOWER, TRIO_CR_GW_CTL, TRIO_CR_GW_DATA_LOWER,
    TRIO_CR_GW_TRIGGER, TRIO_CR_GW_LOCK_ACQUIRED, BLUEFIELD2_DEVICE_ID]

theorem bf2_wr_wdat_commit (s : Sim) (v lo : Nat)
    (hdev : s.hw.devId = BLUEFIELD2_DEVICE_ID) (hff : s.faults = [])
    (hwl : s.hw.wdatLo = some lo) :
    crspace_rsh_gw_write s RSH_BYTE_ACC_WDAT v =
      (0, { s with
            hw := { s.hw with
                    wdatLo := none,
                    mem64 := Function.update s.hw.mem64 s.hw.accAddr
                               (lo ||| (v % 4294967296) <<< 32),
                    dataReg := v % 4294967296 },
            faults := [],
            pciOps := s.pciOps + 2,
            ctrace := s.ctrace ++ [CrEv.wr RSH_BYTE_ACC_WDAT (v % 4294967296)] }) := by
  simp +decide [crspace_rsh_gw_write, pci_cap_write, pci_write_long, capSpaceWrite,
    crW, hdev, hff, hwl, modmod32, Nat.add_assoc, and_mask_mod,
    CRSPACE_RSH_CHANNEL1_BASE, RSH_CHANNEL_BASE,
    RSHIM_CHANNEL, RSH_BOOT_FIFO_DATA, RSH_BYTE_ACC_ADDR, RSH_BYTE_ACC_CTL,
    RSH_BYTE_ACC_WDAT, RSH_BYTE_ACC_INTERLOCK, MELLANOX_ADDR, MELLANOX_DATA,
    TRIO_CR_GW_LOCK, TRIO_CR_GW_ADDR_LOWER, TRIO_CR_GW_CTL, TRIO_CR_GW_DATA_LOWER,
    TRIO_CR_GW_TRIGGER, TRIO_CR_GW_LOCK_ACQUIRED, BLUEFIELD2_DEVICE_ID]

theorem bf2_wr_interlock (s : Sim)
    (hdev : s.hw.devId = BLUEFIELD2_DEVICE_ID) (hff : s.faults = []) :
    crspace_rsh_gw_write s RSH_BYTE_ACC_INTERLOCK 0 =
      (0, { s with
            hw := { s.hw with
                    ilFree := true,
                    ilRelCnt := s.hw.ilRelCnt + 1,
                    dataReg := 0 },
            faults := [],
            pciOps := s.pciOps + 2,
            ctrace := s.ctrace ++ [CrEv.wr RSH_BYTE_ACC_INTERLOCK 0] }) := by
  simp +decide [crspace_rsh_gw_write, pci_cap_write, pci_write_long, capSpaceWrite,
    crW, hdev, hff, modmod32, Nat.add_assoc, and_mask_mod,
    CRSPACE_RSH_CHANNEL1_BASE, RSH_CHANNEL_BASE,
    RSHIM_CHANNEL, RSH_BOOT_FIFO_DATA, RSH_BYTE_ACC_ADDR, RSH_BYTE_ACC_CTL,
    RSH_BYTE_ACC_WDAT, RSH_BYTE_ACC_INTERLOCK, MELLANOX_ADDR, MELLANOX_DATA,
    TRIO_CR_GW_LOCK, TRIO_CR_GW_ADDR_LOWER, TRIO_CR_GW_CTL, TRIO_CR_GW_DATA_LOWER,
    TRIO_CR_GW_TRIGGER, TRIO_CR_GW_LOCK_ACQUIRED, BLUEFIELD2_DEVICE_ID]

theorem bf2_rd_ctl (s : Sim)
    (hdev : s.hw.devId = BLUEFIELD2_DEVICE_ID) (hff : s.faults = []) :
    crspace_rsh_gw_read s RSH_BYTE_ACC_CTL =
      ((0, s.hw.ctlVal),
       { s with
         hw := { s.hw with dataReg := s.hw.ctlVal },
         faults := [],
         pciOps := s.pciOps + 2,
         ctrace := s.ctrace ++ [CrEv.rd RSH_BYTE_ACC_CTL] }) := by
  simp +decide [crspace_rsh_gw_read, pci_cap_read, pci_write_long, pci_read_long,
    capSpaceRead, crR, hdev, hff, modmod32, Nat.add_assoc, and_mask_mod,
    CRSPACE_RSH_CHANNEL1_BASE, RSH_CHANNEL_BASE,
    RSHIM_CHANNEL, RSH_BOOT_FIFO_DATA, RSH_BYTE_ACC_ADDR, RSH_BYTE_ACC_CTL,
    RSH_BYTE_ACC_RDAT, RSH_BYTE_ACC_INTERLOCK, MELLANOX_ADDR, MELLANOX_DATA,
    MELLANOX_CAP_READ, TRIO_CR_GW_LOCK, TRIO_CR_GW_DATA_LOWER,
    BLUEFIELD2_DEVICE_ID]

theorem bf2_rd_rdat (s : Sim)
    (hdev : s.hw.devId = BLUEFIELD2_DEVICE_ID) (hff : s.faults = []) :
    crspace_rsh_gw_read s RSH_BYTE_ACC_RDAT =
      ((0, s.hw.rdat.headD 0),
       { s with
         hw := { s.hw with
                 rdat := s.hw.rdat.tail,
                 dataReg := s.hw.rdat.headD 0 },
         faults := [],
         pciOps := s.pciOps + 2,
         ctrace := s.ctrace ++ [CrEv.rd RSH_BYTE_ACC_RDAT] }) := by
  simp +decide [crspace_rsh_gw_read, pci_cap_read, pci_write_long, pci_read_long,
    capSpaceRead, crR, hdev, hff, modmod32, Nat.add_assoc, and_mask_mod,
    CRSPACE_RSH_CHANNEL1_BASE, RSH_CHANNEL_BASE,
    RSHIM_CHANNEL, RSH_BOOT_FIFO_DATA, RSH_BYTE_ACC_ADDR, RSH_BYTE_ACC_CTL,
    RSH_BYTE_ACC_RDAT, RSH_BYTE_ACC_INTERLOCK, MELLANOX_ADDR, MELLANOX_DATA,
    MELLANOX_CAP_READ, TRIO_CR_GW_LOCK, TRIO_CR_GW_DATA_LOWER,
    BLUEFIELD2_DEVICE_ID]

theorem bf2_rd_interlock_free (s : Sim)
    (hdev : s.hw.devId = BLUEFIELD2_DEVICE_ID) (hff : s.faults = [])
    (hil : s.hw.ilFree = true) :
    crspace_rsh_gw_read s RSH_BYTE_ACC_INTERLOCK =
      ((0, 1),
       { s with
         hw := { s.hw with
                 ilFree := false,
                 ilAcqCnt := s.hw.ilAcqCnt + 1,
                 dataReg := 1 },
         faults := [],
         pciOps := s.pciOps + 2,
         ctrace := s.ctrace ++ [CrEv.rd RSH_BYTE_ACC_INTERLOCK] }) := by
  simp +decide [crspace_rsh_gw_read, pci_cap_read, pci_write_long, pci_read_long,
    capSpaceRead, crR, hdev, hff, hil, modmod32, Nat.add_assoc, and_mask_mod,
    CRSPACE_RSH_CHANNEL1_BASE, RSH_CHANNEL_BASE,
    RSHIM_CHANNEL, RSH_BOOT_FIFO_DATA, RSH_BYTE_ACC_ADDR, RSH_BYTE_ACC_CTL,
    RSH_BYTE_ACC_RDAT, RSH_BYTE_ACC_INTERLOCK, MELLANOX_ADDR, MELLANOX_DATA,
    MELLANOX_CAP_READ, TRIO_CR_GW_LOCK, TRIO_CR_GW_DATA_LOWER,
    BLUEFIELD2_DEVICE_ID]

theorem bf2_rd_interlock_held (s : Sim)
    (hdev : s.hw.devId = BLUEFIELD2_DEVICE_ID) (hff : s.faults = [])
    (hil : s.hw.ilFree = false) :
    crspace_rsh_gw_read s RSH_BYTE_ACC_INTERLOCK =
      ((0, 0),
       { s with
         hw := { s.hw with dataReg := 0 },
         faults := [],
         pciOps := s.pciOps + 2,
         ctrace := s.ctrace ++ [CrEv.rd RSH_BYTE_ACC_INTERLOCK] }) := by
  simp +decide [crspace_rsh_gw_read, pci_cap_read, pci_write_long, pci_read_long,
    capSpaceRead, crR, hdev, hff, hil, modmod32, Nat.add_assoc, and_mask_mod,
    CRSPACE_RSH_CHANNEL1_BASE, RSH_CHANNEL_BASE,
    RSHIM_CHANNEL, RSH_BOOT_FIFO_DATA, RSH_BYTE_ACC_ADDR, RSH_BYTE_ACC_CTL,
    RSH_BYTE_ACC_RDAT, RSH_BYTE_ACC_INTERLOCK, MELLANOX_ADDR, MELLANOX_DATA,
    MELLANOX_CAP_READ, TRIO_CR_GW_LOCK, TRIO_CR_GW_DATA_LOWER,
    BLUEFIELD2_DEVICE_ID]

theorem bf2_wr_boot_stage (s : Sim) (addr v : Nat)
    (hdev : s.hw.devId = BLUEFIELD2_DEVICE_ID) (hff : s.faults = [])
    (hmask : addr &&& 0xffff = RSH_BOOT_FIFO_DATA)
    (hfl : s.hw.fifoLo = none) :
    crspace_rsh_gw_write s addr v =
      (0, { s with
            hw := { s.hw with
                    fifoLo := some (v % 4294967296),
                    dataReg := v % 4294967296 },
            faults := [],
            pciOps := s.pciOps + 2,
            ctrace := s.ctrace ++ [CrEv.wr addr (v % 4294967296)] }) := by
  simp +decide [crspace_rsh_gw_write, pci_cap_write, pci_write_long, capSpaceWrite,
    crW, hdev, hff, hmask, hfl, modmod32, Nat.add_assoc, and_mask_mod,
    CRSPACE_RSH_CHANNEL1_BASE, RSH_CHANNEL_BASE,
    RSHIM_CHANNEL, RSH_BOOT_FIFO_DATA, RSH_BYTE_ACC_ADDR, RSH_BYTE_ACC_CTL,
    RSH_BYTE_ACC_WDAT, RSH_BYTE_ACC_INTERLOCK, MELLANOX_ADDR, MELLANOX_DATA,
    TRIO_CR_GW_LOCK, TRIO_CR_GW_ADDR_LOWER, TRIO_CR_GW_CTL, TRIO_CR_GW_DATA_LOWER,
    TRIO_CR_GW_TRIGGER, TRIO_CR_GW_LOCK_ACQUIRED, BLUEFIELD2_DEVICE_ID]

theorem bf2_wr_boot_push (s : Sim) (addr v lo : Nat)
    (hdev : s.hw.devId = BLUEFIELD2_DEVICE_ID) (hff : s.faults = [])
    (hmask : addr &&& 0xffff = RSH_BOOT_FIFO_DATA)
    (hfl : s.hw.fifoLo = some lo) :
    crspace_rsh_gw_write s addr v =
      (0, { s with
            hw := { s.hw with
                    fifoLo := none,
                    bootFifo := s.hw.bootFifo ++ [lo ||| (v % 4294967296) <<< 32],
                    dataReg := v % 4294967296 },
            faults := [],
            pciOps := s.pciOps + 2,
            ctrace := s.ctrace ++ [CrEv.wr addr (v % 4294967296)] }) := by
  simp +decide [crspace_rsh_gw_write, pci_cap_write, pci_write_long, capSpaceWrite,
    crW, hdev, hff, hmask, hfl, modmod32, Nat.add_assoc, and_mask_mod,
    CRSPACE_RSH_CHANNEL1_BASE, RSH_CHANNEL_BASE,
    RSHIM_CHANNEL, RSH_BOOT_FIFO_DATA, RSH_BYTE_ACC_ADDR, RSH_BYTE_ACC_CTL,
    RSH_BYTE_ACC_WDAT, RSH_BYTE_ACC_INTERLOCK, MELLANOX_ADDR, MELLANOX_DATA,
    TRIO_CR_GW_LOCK, TRIO_CR_GW_ADDR_LOWER, TRIO_CR_GW_CTL, TRIO_CR_GW_DATA_LOWER,
    TRIO_CR_GW_TRIGGER, TRIO_CR_GW_LOCK_ACQUIRED, BLUEFIELD2_DEVICE_ID]

/-! ## Fault-free polling loop composites (immediate success) -/

theorem bf2_pending_wait (s : Sim)
    (hdev : s.hw.devId = BLUEFIELD2_DEVICE_ID) (hff : s.faults = [])
    (hp : s.hw.ctlVal &&& RSH_BYTE_ACC_PENDING = 0) :
    rshim_byte_acc_pending_wait s =
      (0, { s with
            hw := { s.hw with dataReg := s.hw.ctlVal },
            faults := [],
            pciOps := s.pciOps + 2,
            ctrace := s.ctrace ++ [CrEv.rd RSH_BYTE_ACC_CTL] }) := by
  rw [show rshim_byte_acc_pending_wait s
        = rshim_byte_acc_pending_wait_go (999 + 1) s from rfl,
      rshim_byte_acc_pending_wait_go_succ, bf2_rd_ctl s hdev hff]
  simp [hp]

theorem bf2_il_acquire (s : Sim)
    (hdev : s.hw.devId = BLUEFIELD2_DEVICE_ID) (hff : s.faults = [])
    (hil : s.hw.ilFree = true) :
    rshim_byte_acc_lock_acquire s =
      (0, { s with
            hw := { s.hw with
                    ilFree := false,
                    ilAcqCnt := s.hw.ilAcqCnt + 1,
                    dataReg := 1 },
            faults := [],
            pciOps := s.pciOps + 2,
            ctrace := s.ctrace ++ [CrEv.rd RSH_BYTE_ACC_INTERLOCK] }) := by
  rw [show rshim_byte_acc_lock_acquire s
        = rshim_byte_acc_lock_acquire_go (999 + 1) s from rfl,
      rshim_byte_acc_lock_acquire_go_succ, bf2_rd_interlock_free s hdev hff hil]
  simp

/-! ## Fault-free single CR-space operation lemmas, BlueField-1 gateway path -/

theorem bf1_wr_acc_addr (s : Sim) (v : Nat)
    (hdev : s.hw.devId = BLUEFIELD1_DEVICE_ID) (hff : s.faults = [])
    (hlock : s.hw.gwLockVal = 0) :
    crspace_rsh_gw_write s RSH_BYTE_ACC_ADDR v =
      (0, { s with
            hw := { s.hw with
                    accAddr := ntohl (htonl (v % 4294967296)),
                    gwLockVal := 0,
                    gwAddr := 66728,
                    gwCtl := 2,
                    gwData := htonl (v % 4294967296),
                    gwAcqCnt := s.hw.gwAcqCnt + 1,
                    gwRelCnt := s.hw.gwRelCnt + 1,
                    dataReg := 0 },
            faults := [],
            pciOps := s.pciOps + 14,
            ctrace := s.ctrace ++ [CrEv.wr RSH_BYTE_ACC_ADDR (v % 4294967296)] }) := by
  simp +decide [crspace_rsh_gw_write, seqRc, gw_acquire_free, trio_cr_gw_lock_release,
    pci_cap_write, pci_write_long, capSpaceWrite, crW, hdev, hff, hlock,
    modmod32, htonl_mod, Nat.add_assoc, and_mask_mod,
    CRSPACE_RSH_CHANNEL1_BASE, RSH_CHANNEL_BASE, RSHIM_CHANNEL,
    RSH_BOOT_FIFO_DATA, RSH_BYTE_ACC_ADDR, RSH_BYTE_ACC_CTL, RSH_BYTE_ACC_WDAT,
    RSH_BYTE_ACC_INTERLOCK, MELLANOX_ADDR, MELLANOX_DATA, TRIO_CR_GW_LOCK,
    TRIO_CR_GW_ADDR_LOWER, TRIO_CR_GW_CTL, TRIO_CR_GW_DATA_LOWER,
    TRIO_CR_GW_TRIGGER, TRIO_CR_GW_LOCK_ACQUIRED, TRIO_CR_GW_READ_4BYTE,
    TRIO_CR_GW_WRITE_4BYTE, BLUEFIELD1_DEVICE_ID, BLUEFIELD2_DEVICE_ID]

theorem bf1_wr_ctl_size (s : Sim)
    (hdev : s.hw.devId = BLUEFIELD1_DEVICE_ID) (hff : s.faults = [])
    (hlock : s.hw.gwLockVal = 0) :
    crspace_rsh_gw_write s RSH_BYTE_ACC_CTL RSH_BYTE_ACC_SIZE_4BYTE =
      (0, { s with
            hw := { s.hw with
                    ctlVal := 1536,
                    gwLockVal := 0,
                    gwAddr := 66704,
                    gwCtl := 2,
                    gwData := htonl 1536,
                    gwAcqCnt := s.hw.gwAcqCnt + 1,
                    gwRelCnt := s.hw.gwRelCnt + 1,
                    dataReg := 0 },
            faults := [],
            pciOps := s.pciOps + 14,
            ctrace := s.ctrace ++ [CrEv.wr RSH_BYTE_ACC_CTL 1536] }) := by
  have hc : ntohl (htonl 1536) = 1536 := by decide
  simp +decide [crspace_rsh_gw_write, seqRc, gw_acquire_free, trio_cr_gw_lock_release,
    pci_cap_write, pci_write_long, capSpaceWrite, crW, hdev, hff, hlock, hc,
    modmod32, htonl_mod, Nat.add_assoc, and_mask_mod,
    CRSPACE_RSH_CHANNEL1_BASE, RSH_CHANNEL_BASE, RSHIM_CHANNEL,
    RSH_BOOT_FIFO_DATA, RSH_BYTE_ACC_ADDR, RSH_BYTE_ACC_CTL, RSH_BYTE_ACC_WDAT,
    RSH_BYTE_ACC_INTERLOCK, RSH_BYTE_ACC_SIZE_4BYTE, RSH_BYTE_ACC_READ_TRIGGER,
    MELLANOX_ADDR, MELLANOX_DATA, TRIO_CR_GW_LOCK,
    TRIO_CR_GW_ADDR_LOWER, TRIO_CR_GW_CTL, TRIO_CR_GW_DATA_LOWER,
    TRIO_CR_GW_TRIGGER, TRIO_CR_GW_LOCK_ACQUIRED, TRIO_CR_GW_READ_4BYTE,
    TRIO_CR_GW_WRITE_4BYTE, BLUEFIELD1_DEVICE_ID, BLUEFIELD2_DEVICE_ID]

theorem bf1_wr_ctl_trig (s : Sim)
    (hdev : s.hw.devId = BLUEFIELD1_DEVICE_ID) (hff : s.faults = [])
    (hlock : s.hw.gwLockVal = 0) :
    crspace_rsh_gw_write s RSH_BYTE_ACC_CTL 16778752 =
      (0, { s with
            hw := { s.hw with
                    ctlVal := 16778752,
                    rdat := [s.hw.mem64 s.hw.accAddr % 4294967296,
                             (s.hw.mem64 s.hw.accAddr >>> 32) % 4294967296],
                    gwLockVal := 0,
                    gwAddr := 66704,
                    gwCtl := 2,
                    gwData := htonl 16778752,
                    gwAcqCnt := s.hw.gwAcqCnt + 1,
                    gwRelCnt := s.hw.gwRelCnt + 1,
                    dataReg := 0 },
            faults := [],
            pciOps := s.pciOps + 14,
            ctrace := s.ctrace ++ [CrEv.wr RSH_BYTE_ACC_CTL 16778752] }) := by
  have hc : ntohl (htonl 16778752) = 16778752 := by decide
  simp +decide [crspace_rsh_gw_write, seqRc, gw_acquire_free, trio_cr_gw_lock_release,
    pci_cap_write, pci_write_long, capSpaceWrite, crW, hdev, hff, hlock, hc,
    modmod32, htonl_mod, Nat.add_assoc, and_mask_mod,
    CRSPACE_RSH_CHANNEL1_BASE, RSH_CHANNEL_BASE, RSHIM_CHANNEL,
    RSH_BOOT_FIFO_DATA, RSH_BYTE_ACC_ADDR, RSH_BYTE_ACC_CTL, RSH_BYTE_ACC_WDAT,
    RSH_BYTE_ACC_INTERLOCK, RSH_BYTE_ACC_READ_TRIGGER,
    MELLANOX_ADDR, MELLANOX_DATA, TRIO_CR_GW_LOCK,
    TRIO_CR_GW_ADDR_LOWER, TRIO_CR_GW_CTL, TRIO_CR_GW_DATA_LOWER,
    TRIO_CR_GW_TRIGGER, TRIO_CR_GW_LOCK_ACQUIRED, TRIO_CR_GW_READ_4BYTE,
    TRIO_CR_GW_WRITE_4BYTE, BLUEFIELD1_DEVICE_ID, BLUEFIELD2_DEVICE_ID]

theorem bf1_wr_wdat_stage (s : Sim) (v : Nat)
    (hdev : s.hw.devId = BLUEFIELD1_DEVICE_ID) (hff : s.faults = [])
    (hlock : s.hw.gwLockVal = 0) (hwl : s.hw.wdatLo = none) :
    crspace_rsh_gw_write s RSH_BYTE_ACC_WDAT v =
      (0, { s with
            hw := { s.hw with
                    wdatLo := some (ntohl (htonl (v % 4294967296))),
                    gwLockVal := 0,
                    gwAddr := 66712,
                    gwCtl := 2,
                    gwData := htonl (v % 4294967296),
                    gwAcqCnt := s.hw.gwAcqCnt + 1,
                    gwRelCnt := s.hw.gwRelCnt + 1,
                    dataReg := 0 },
            faults := [],
            pciOps := s.pciOps + 14,
            ctrace := s.ctrace ++ [CrEv.wr RSH_BYTE_ACC_WDAT (v % 4294967296)] }) := by
  simp +decide [crspace_rsh_gw_write, seqRc, gw_acquire_free, trio_cr_gw_lock_release,
    pci_cap_write, pci_write_long, capSpaceWrite, crW, hdev, hff, hlock, hwl,
    modmod32, htonl_mod, Nat.add_assoc, and_mask_mod,
    CRSPACE_RSH_CHANNEL1_BASE, RSH_CHANNEL_BASE, RSHIM_CHANNEL,
    RSH_BOOT_FIFO_DATA, RSH_BYTE_ACC_ADDR, RSH_BYTE_ACC_CTL, RSH_BYTE_ACC_WDAT,
    RSH_BYTE_ACC_INTERLOCK, MELLANOX_ADDR, MELLANOX_DATA, TRIO_CR_GW_LOCK,
    TRIO_CR_GW_ADDR_LOWER, TRIO_CR_GW_CTL, TRIO_CR_GW_DATA_LOWER,
    TRIO_CR_GW_TRIGGER, TRIO_CR_GW_LOCK_ACQUIRED, TRIO_CR_GW_READ_4BYTE,
    TRIO_CR_GW_WRITE_4BYTE, BLUEFIELD1_DEVICE_ID, BLUEFIELD2_DEVICE_ID]

theorem bf1_wr_wdat_commit (s : Sim) (v lo : Nat)
    (hdev : s.hw.devId = BLUEFIELD1_DEVICE_ID) (hff : s.faults = [])
    (hlock : s.hw.gwLockVal = 0) (hwl : s.hw.wdatLo = some lo) :
    crspace_rsh_gw_write s RSH_BYTE_ACC_WDAT v =
      (0, { s with
            hw := { s.hw with
                    wdatLo := none,
                    mem64 := Function.update s.hw.mem64 s.hw.accAddr
                               (lo ||| ntohl (htonl (v % 4294967296)) <<< 32),
                    gwLockVal := 0,
                    gwAddr := 66712,
                    gwCtl := 2,
                    gwData := htonl (v % 4294967296),
                    gwAcqCnt := s.hw.gwAcqCnt + 1,
                    gwRelCnt := s.hw.gwRelCnt + 1,
                    dataReg := 0 },
            faults := [],
            pciOps := s.pciOps + 14,
            ctrace := s.ctrace ++ [CrEv.wr RSH_BYTE_ACC_WDAT (v % 4294967296)] }) := by
  simp +decide [crspace_rsh_gw_write, seqRc, gw_acquire_free, trio_cr_gw_lock_release,
    pci_cap_write, pci_write_long, capSpaceWrite, crW, hdev, hff, hlock, hwl,
    modmod32, htonl_mod, Nat.add_assoc, and_mask_mod,
    CRSPACE_RSH_CHANNEL1_BASE, RSH_CHANNEL_BASE, RSHIM_CHANNEL,
    RSH_BOOT_FIFO_DATA, RSH_BYTE_ACC_ADDR, RSH_BYTE_ACC_CTL, RSH_BYTE_ACC_WDAT,
    RSH_BYTE_ACC_INTERLOCK, MELLANOX_ADDR, MELLANOX_DATA, TRIO_CR_GW_LOCK,
    TRIO_CR_GW_ADDR_LOWER, TRIO_CR_GW_CTL, TRIO_CR_GW_DATA_LOWER,
    TRIO_CR_GW_TRIGGER, TRIO_CR_GW_LOCK_ACQUIRED, TRIO_CR_GW_READ_4BYTE,
    TRIO_CR_GW_WRITE_4BYTE, BLUEFIELD1_DEVICE_ID, BLUEFIELD2_DEVICE_ID]

theorem bf1_wr_interlock (s : Sim)
    (hdev : s.hw.devId = BLUEFIELD1_DEVICE_ID) (hff : s.faults = [])
    (hlock : s.hw.gwLockVal = 0) :
    crspace_rsh_gw_write s RSH_BYTE_ACC_INTERLOCK 0 =
      (0, { s with
            hw := { s.hw with
                    ilFree := true,
                    ilRelCnt := s.hw.ilRelCnt + 1,
                    gwLockVal := 0,
                    gwAddr := 66736,
                    gwCtl := 2,
                    gwData := htonl 0,
                    gwAcqCnt := s.hw.gwAcqCnt + 1,
                    gwRelCnt := s.hw.gwRelCnt + 1,
                    dataReg := 0 },
            faults := [],
            pciOps := s.pciOps + 14,
            ctrace := s.ctrace ++ [CrEv.wr RSH_BYTE_ACC_INTERLOCK 0] }) := by
  have hc : ntohl (htonl 0) = 0 := by decide
  simp +decide [crspace_rsh_gw_write, seqRc, gw_acquire_free, trio_cr_gw_lock_release,
    pci_cap_write, pci_write_long, capSpaceWrite, crW, hdev, hff, hlock, hc,
    modmod32, htonl_mod, Nat.add_assoc, and_mask_mod,
    CRSPACE_RSH_CHANNEL1_BASE, RSH_CHANNEL_BASE, RSHIM_CHANNEL,
    RSH_BOOT_FIFO_DATA, RSH_BYTE_ACC_ADDR, RSH_BYTE_ACC_CTL, RSH_BYTE_ACC_WDAT,
    RSH_BYTE_ACC_INTERLOCK, MELLANOX_ADDR, MELLANOX_DATA, TRIO_CR_GW_LOCK,
    TRIO_CR_GW_ADDR_LOWER, TRIO_CR_GW_CTL, TRIO_CR_GW_DATA_LOWER,
    TRIO_CR_GW_TRIGGER, TRIO_CR_GW_LOCK_ACQUIRED, TRIO_CR_GW_READ_4BYTE,
    TRIO_CR_GW_WRITE_4BYTE, BLUEFIELD1_DEVICE_ID, BLUEFIELD2_DEVICE_ID]

theorem bf1_wr_boot_stage (s : Sim) (addr v : Nat)
    (hdev : s.hw.devId = BLUEFIELD1_DEVICE_ID) (hff : s.faults = [])
    (hlock : s.hw.gwLockVal = 0)
    (hmask : addr &&& 0xffff = RSH_BOOT_FIFO_DATA)
    (hfl : s.hw.fifoLo = none) :
    crspace_rsh_gw_write s addr v =
      (0, { s with
            hw := { s.hw with
                    fifoLo := some (ntohl (htonl (v % 4294967296))),
                    gwLockVal := 0,
                    gwAddr := addr % 4294967296,
                    gwCtl := 2,
                    gwData := htonl (v % 4294967296),
                    gwAcqCnt := s.hw.gwAcqCnt + 1,
                    gwRelCnt := s.hw.gwRelCnt + 1,
                    dataReg := 0 },
            faults := [],
            pciOps := s.pciOps + 14,
            ctrace := s.ctrace ++ [CrEv.wr addr (v % 4294967296)] }) := by
  have hb : (addr % 4294967296) % 65536 = RSH_BOOT_FIFO_DATA := by
    rw [and_mask_mod] at hmask
    omega
  simp +decide [crspace_rsh_gw_write, seqRc, gw_acquire_free, trio_cr_gw_lock_release,
    pci_cap_write, pci_write_long, capSpaceWrite, crW_boot _ _ _ hb,
    hdev, hff, hlock, hmask, hfl,
    modmod32, htonl_mod, Nat.add_assoc,
    CRSPACE_RSH_CHANNEL1_BASE, RSH_CHANNEL_BASE, RSHIM_CHANNEL,
    MELLANOX_ADDR, MELLANOX_DATA, TRIO_CR_GW_LOCK,
    TRIO_CR_GW_ADDR_LOWER, TRIO_CR_GW_CTL, TRIO_CR_GW_DATA_LOWER,
    TRIO_CR_GW_TRIGGER, TRIO_CR_GW_LOCK_ACQUIRED, TRIO_CR_GW_READ_4BYTE,
    TRIO_CR_GW_WRITE_4BYTE, BLUEFIELD1_DEVICE_ID, BLUEFIELD2_DEVICE_ID]

theorem bf1_wr_boot_push (s : Sim) (addr v lo : Nat)
    (hdev : s.hw.devId = BLUEFIELD1_DEVICE_ID) (hff : s.faults = [])
    (hlock : s.hw.gwLockVal = 0)
    (hmask : addr &&& 0xffff = RSH_BOOT_FIFO_DATA)
    (hfl : s.hw.fifoLo = some lo) :
    crspace_rsh_gw_write s addr v =
      (0, { s with
            hw := { s.hw with
                    fifoLo := none,
                    bootFifo := s.hw.bootFifo ++
                      [lo ||| ntohl (htonl (v % 4294967296)) <<< 32],
                    gwLockVal := 0,
                    gwAddr := addr % 4294967296,
                    gwCtl := 2,
                    gwData := htonl (v % 4294967296),
                    gwAcqCnt := s.hw.gwAcqCnt + 1,
                    gwRelCnt := s.hw.gwRelCnt + 1,
                    dataReg := 0 },
            faults := [],
            pciOps := s.pciOps + 14,
            ctrace := s.ctrace ++ [CrEv.wr addr (v % 4294967296)] }) := by
  have hb : (addr % 4294967296) % 65536 = RSH_BOOT_FIFO_DATA := by
    rw [and_mask_mod] at hmask
    omega
  simp +decide [crspace_rsh_gw_write, seqRc, gw_acquire_free, trio_cr_gw_lock_release,
    pci_cap_write, pci_write_long, capSpaceWrite, crW_boot _ _ _ hb,
    hdev, hff, hlock, hmask, hfl,
    modmod32, htonl_mod, Nat.add_assoc,
    CRSPACE_RSH_CHANNEL1_BASE, RSH_CHANNEL_BASE, RSHIM_CHANNEL,
    MELLANOX_ADDR, MELLANOX_DATA, TRIO_CR_GW_LOCK,
    TRIO_CR_GW_ADDR_LOWER, TRIO_CR_GW_CTL, TRIO_CR_GW_DATA_LOWER,
    TRIO_CR_GW_TRIGGER, TRIO_CR_GW_LOCK_ACQUIRED, TRIO_CR_GW_READ_4BYTE,
    TRIO_CR_GW_WRITE_4BYTE, BLUEFIELD1_DEVICE_ID, BLUEFIELD2_DEVICE_ID]

theorem bf1_rd_ctl (s : Sim)
    (hdev : s.hw.devId = BLUEFIELD1_DEVICE_ID) (hff : s.faults = [])
    (hlock : s.hw.gwLockVal = 0) :
    crspace_rsh_gw_read s RSH_BYTE_ACC_CTL =
      ((0, ntohl (htonl s.hw.ctlVal)),
       { s with
         hw := { s.hw with
                 gwLockVal := 0,
                 gwAddr := 66704,
                 gwCtl := 6,
                 gwData := htonl s.hw.ctlVal,
                 gwAcqCnt := s.hw.gwAcqCnt + 1,
                 gwRelCnt := s.hw.gwRelCnt + 1,
                 dataReg := 0 },
         faults := [],
         pciOps := s.pciOps + 14,
         ctrace := s.ctrace ++ [CrEv.rd RSH_BYTE_ACC_CTL] }) := by
  simp +decide [crspace_rsh_gw_read, seqRcV, gwReadTail, gw_acquire_free,
    trio_cr_gw_lock_release,
    pci_cap_read, pci_cap_write, pci_write_long, pci_read_long,
    capSpaceRead, capSpaceWrite, crR, hdev, hff, hlock,
    modmod32, htonl_mod, Nat.add_assoc, and_mask_mod,
    CRSPACE_RSH_CHANNEL1_BASE, RSH_CHANNEL_BASE, RSHIM_CHANNEL,
    RSH_BOOT_FIFO_DATA, RSH_BYTE_ACC_ADDR, RSH_BYTE_ACC_CTL, RSH_BYTE_ACC_RDAT,
    RSH_BYTE_ACC_INTERLOCK, MELLANOX_ADDR, MELLANOX_DATA, MELLANOX_CAP_READ,
    TRIO_CR_GW_LOCK, TRIO_CR_GW_ADDR_LOWER, TRIO_CR_GW_CTL, TRIO_CR_GW_DATA_LOWER,
    TRIO_CR_GW_TRIGGER, TRIO_CR_GW_LOCK_ACQUIRED, TRIO_CR_GW_READ_4BYTE,
    TRIO_CR_GW_WRITE_4BYTE, BLUEFIELD1_DEVICE_ID, BLUEFIELD2_DEVICE_ID]

theorem bf1_rd_rdat (s : Sim)
    (hdev : s.hw.devId = BLUEFIELD1_DEVICE_ID) (hff : s.faults = [])
    (hlock : s.hw.gwLockVal = 0) :
    crspace_rsh_gw_read s RSH_BYTE_ACC_RDAT =
      ((0, ntohl (htonl (s.hw.rdat.headD 0))),
       { s with
         hw := { s.hw with
                 rdat := s.hw.rdat.tail,
                 gwLockVal := 0,
                 gwAddr := 66720,
                 gwCtl := 6,
                 gwData := htonl (s.hw.rdat.headD 0),
                 gwAcqCnt := s.hw.gwAcqCnt + 1,
                 gwRelCnt := s.hw.gwRelCnt + 1,
                 dataReg := 0 },
         faults := [],
         pciOps := s.pciOps + 14,
         ctrace := s.ctrace ++ [CrEv.rd RSH_BYTE_ACC_RDAT] }) := by
  simp +decide [crspace_rsh_gw_read, seqRcV, gwReadTail, gw_acquire_free,
    trio_cr_gw_lock_release,
    pci_cap_read, pci_cap_write, pci_write_long, pci_read_long,
    capSpaceRead, capSpaceWrite, crR, hdev, hff, hlock,
    modmod32, htonl_mod, Nat.add_assoc, and_mask_mod,
    CRSPACE_RSH_CHANNEL1_BASE, RSH_CHANNEL_BASE, RSHIM_CHANNEL,
    RSH_BOOT_FIFO_DATA, RSH_BYTE_ACC_ADDR, RSH_BYTE_ACC_CTL, RSH_BYTE_ACC_RDAT,
    RSH_BYTE_ACC_INTERLOCK, MELLANOX_ADDR, MELLANOX_DATA, MELLANOX_CAP_READ,
    TRIO_CR_GW_LOCK, TRIO_CR_GW_ADDR_LOWER, TRIO_CR_GW_CTL, TRIO_CR_GW_DATA_LOWER,
    TRIO_CR_GW_TRIGGER, TRIO_CR_GW_LOCK_ACQUIRED, TRIO_CR_GW_READ_4BYTE,
    TRIO_CR_GW_WRITE_4BYTE, BLUEFIELD1_DEVICE_ID, BLUEFIELD2_DEVICE_ID]

theorem bf1_pending_wait (s : Sim)
    (hdev : s.hw.devId = BLUEFIELD1_DEVICE_ID) (hff : s.faults = [])
    (hlock : s.hw.gwLockVal = 0) (hc32 : s.hw.ctlVal < 4294967296)
    (hp : s.hw.ctlVal &&& RSH_BYTE_ACC_PENDING = 0) :
    rshim_byte_acc_pending_wait s =
      (0, { s with
            hw := { s.hw with
                    gwLockVal := 0,
                    gwAddr := 66704,
                    gwCtl := 6,
                    gwData := htonl s.hw.ctlVal,
                    gwAcqCnt := s.hw.gwAcqCnt + 1,
                    gwRelCnt := s.hw.gwRelCnt + 1,
                    dataReg := 0 },
            faults := [],
            pciOps := s.pciOps + 14,
            ctrace := s.ctrace ++ [CrEv.rd RSH_BYTE_ACC_CTL] }) := by
  rw [show rshim_byte_acc_pending_wait s
        = rshim_byte_acc_pending_wait_go (999 + 1) s from rfl,
      rshim_byte_acc_pending_wait_go_succ, bf1_rd_ctl s hdev hff hlock]
  simp [ntohl_htonl_of_lt hc32, hp]

/-! ## Fault-free byte-access-widget composites -/

set_option maxHeartbeats 4000000 in
theorem bf2_byte_acc_write_ok (s : Sim) (addr value : Nat)
    (hdev : s.hw.devId = BLUEFIELD2_DEVICE_ID) (hff : s.faults = [])
    (hil : s.hw.ilFree = true) (hwl : s.hw.wdatLo = none) :
    rshim_byte_acc_write s addr value =
      (0, { s with
            hw := { s.hw with
                    accAddr := addr % 4294967296,
                    ctlVal := 1536,
                    wdatLo := none,
                    mem64 := Function.update s.hw.mem64 (addr % 4294967296)
                               ((value % 4294967296) |||
                                 ((value >>> 32) % 4294967296) <<< 32),
                    ilFree := true,
                    ilAcqCnt := s.hw.ilAcqCnt + 1,
                    ilRelCnt := s.hw.ilRelCnt + 1,
                    dataReg := 0 },
            faults := [],
            pciOps := s.pciOps + 14,
            ctrace := s.ctrace ++
              [CrEv.rd RSH_BYTE_ACC_INTERLOCK,
               CrEv.wr RSH_BYTE_ACC_ADDR (addr % 4294967296),
               CrEv.wr RSH_BYTE_ACC_CTL 1536,
               CrEv.wr RSH_BYTE_ACC_WDAT (value % 4294967296),
               CrEv.rd RSH_BYTE_ACC_CTL,
               CrEv.wr RSH_BYTE_ACC_WDAT ((value >>> 32) % 4294967296),
               CrEv.wr RSH_BYTE_ACC_INTERLOCK 0] }) := by
  have hq : (1536 : Nat) &&& 33554432 = 0 := by decide
  simp [rshim_byte_acc_write, rshim_byte_acc_write_exit, seqRc_ok, wrStep_ok,
    rshim_byte_acc_lock_release, bf2_il_acquire, bf2_wr_acc_addr, bf2_wr_ctl_size,
    bf2_wr_wdat_stage, bf2_wr_wdat_commit, bf2_pending_wait, bf2_wr_interlock,
    hdev, hff, hil, hwl, hq, List.append_assoc, Nat.add_assoc, modmod32,
    RSH_BYTE_ACC_PENDING]

set_option maxHeartbeats 4000000 in
theorem bf2_byte_acc_read_ok (s : Sim) (addr : Nat)
    (hdev : s.hw.devId = BLUEFIELD2_DEVICE_ID) (hff : s.faults = [])
    (hil : s.hw.ilFree = true)
    (hp : s.hw.ctlVal &&& RSH_BYTE_ACC_PENDING = 0) :
    rshim_byte_acc_read s addr =
      (((0 : Int), (s.hw.mem64 (addr % 4294967296) % 4294967296) |||
             ((s.hw.mem64 (addr % 4294967296) >>> 32) % 4294967296) <<< 32),
       { s with
         hw := { s.hw with
                 accAddr := addr % 4294967296,
                 ctlVal := 16778752,
                 rdat := [],
                 ilFree := true,
                 ilAcqCnt := s.hw.ilAcqCnt + 1,
                 ilRelCnt := s.hw.ilRelCnt + 1,
                 dataReg := 0 },
         faults := [],
         pciOps := s.pciOps + 18,
         ctrace := s.ctrace ++
           [CrEv.rd RSH_BYTE_ACC_CTL,
            CrEv.rd RSH_BYTE_ACC_INTERLOCK,
            CrEv.wr RSH_BYTE_ACC_ADDR (addr % 4294967296),
            CrEv.wr RSH_BYTE_ACC_CTL 16778752,
            CrEv.rd RSH_BYTE_ACC_CTL,
            CrEv.rd RSH_BYTE_ACC_RDAT,
            CrEv.rd RSH_BYTE_ACC_CTL,
            CrEv.rd RSH_BYTE_ACC_RDAT,
            CrEv.wr RSH_BYTE_ACC_INTERLOCK 0] }) := by
  have h1 : (16777216 : Nat) ||| 1536 = 16778752 := by decide
  have h2 : (16778752 : Nat) &&& 33554432 = 0 := by decide
  have hp' : s.hw.ctlVal &&& 33554432 = 0 := hp
  simp [rshim_byte_acc_read, rshim_byte_acc_read_exit, seqRcV_ok, rdStep_ok,
    rdStepV_ok, rshim_byte_acc_lock_release, bf2_il_acquire, bf2_wr_acc_addr,
    bf2_wr_ctl_trig, bf2_rd_rdat, bf2_pending_wait, bf2_wr_interlock, h1, h2,
    hdev, hff, hil, hp, hp', List.append_assoc, Nat.add_assoc, modmod32,
    RSH_BYTE_ACC_PENDING, RSH_BYTE_ACC_READ_TRIGGER, RSH_BYTE_ACC_SIZE_4BYTE]

set_option maxHeartbeats 4000000 in
theorem bf1_byte_acc_write_ok (s : Sim) (addr value : Nat)
    (hdev : s.hw.devId = BLUEFIELD1_DEVICE_ID) (hff : s.faults = [])
    (hlock : s.hw.gwLockVal = 0) (hwl : s.hw.wdatLo = none) :
    rshim_byte_acc_write s addr value =
      (0, { s with
            hw := { s.hw with
                    accAddr := addr % 4294967296,
                    ctlVal := 1536,
                    wdatLo := none,
                    mem64 := Function.update s.hw.mem64 (addr % 4294967296)
                               ((value % 4294967296) |||
                                 ((value >>> 32) % 4294967296) <<< 32),
                    gwLockVal := 0,
                    gwAddr := 66712,
                    gwCtl := 2,
                    gwData := htonl ((value >>> 32) % 4294967296),
                    gwAcqCnt := s.hw.gwAcqCnt + 5,
                    gwRelCnt := s.hw.gwRelCnt + 5,
                    dataReg := 0 },
            faults := [],
            pciOps := s.pciOps + 70,
            ctrace := s.ctrace ++
              [CrEv.wr RSH_BYTE_ACC_ADDR (addr % 4294967296),
               CrEv.wr RSH_BYTE_ACC_CTL 1536,
               CrEv.wr RSH_BYTE_ACC_WDAT (value % 4294967296),
               CrEv.rd RSH_BYTE_ACC_CTL,
               CrEv.wr RSH_BYTE_ACC_WDAT ((value >>> 32) % 4294967296)] }) := by
  have hq : (1536 : Nat) &&& 33554432 = 0 := by decide
  have hne : BLUEFIELD1_DEVICE_ID ≠ BLUEFIELD2_DEVICE_ID := by decide
  simp [rshim_byte_acc_write, rshim_byte_acc_write_exit, seqRc_ok, wrStep_ok, hne,
    bf1_wr_acc_addr, bf1_wr_ctl_size, bf1_wr_wdat_stage, bf1_wr_wdat_commit,
    bf1_pending_wait, ntohl_htonl,
    hdev, hff, hlock, hwl, hq, List.append_assoc, Nat.add_assoc, modmod32,
    RSH_BYTE_ACC_PENDING]

set_option maxHeartbeats 4000000 in
theorem bf1_byte_acc_read_ok (s : Sim) (addr : Nat)
    (hdev : s.hw.devId = BLUEFIELD1_DEVICE_ID) (hff : s.faults = [])
    (hlock : s.hw.gwLockVal = 0) (hc32 : s.hw.ctlVal < 4294967296)
    (hp : s.hw.ctlVal &&& RSH_BYTE_ACC_PENDING = 0) :
    rshim_byte_acc_read s addr =
      (((0 : Int), (s.hw.mem64 (addr % 4294967296) % 4294967296) |||
             ((s.hw.mem64 (addr % 4294967296) >>> 32) % 4294967296) <<< 32),
       { s with
         hw := { s.hw with
                 accAddr := addr % 4294967296,
                 ctlVal := 16778752,
                 rdat := [],
                 gwLockVal := 0,
                 gwAddr := 66720,
                 gwCtl := 6,
                 gwData := htonl ((s.hw.mem64 (addr % 4294967296) >>> 32)
                                    % 4294967296),
                 gwAcqCnt := s.hw.gwAcqCnt + 7,
                 gwRelCnt := s.hw.gwRelCnt + 7,
                 dataReg := 0 },
         faults := [],
         pciOps := s.pciOps + 98,
         ctrace := s.ctrace ++
           [CrEv.rd RSH_BYTE_ACC_CTL,
            CrEv.wr RSH_BYTE_ACC_ADDR (addr % 4294967296),
            CrEv.wr RSH_BYTE_ACC_CTL 16778752,
            CrEv.rd RSH_BYTE_ACC_CTL,
            CrEv.rd RSH_BYTE_ACC_RDAT,
            CrEv.rd RSH_BYTE_ACC_CTL,
            CrEv.rd RSH_BYTE_ACC_RDAT] }) := by
  have h1 : (16777216 : Nat) ||| 1536 = 16778752 := by decide
  have h2 : (16778752 : Nat) &&& 33554432 = 0 := by decide
  have hp' : s.hw.ctlVal &&& 33554432 = 0 := hp
  have hne : BLUEFIELD1_DEVICE_ID ≠ BLUEFIELD2_DEVICE_ID := by decide
  simp [rshim_byte_acc_read, rshim_byte_acc_read_exit, seqRcV_ok, rdStep_ok, hne,
    rdStepV_ok, bf1_wr_acc_addr, bf1_wr_ctl_trig, bf1_rd_rdat, bf1_pending_wait,
    ntohl_htonl, h1, h2,
    hdev, hff, hlock, hc32, hp, hp', List.append_assoc, Nat.add_assoc, modmod32,
    RSH_BYTE_ACC_PENDING, RSH_BYTE_ACC_READ_TRIGGER, RSH_BYTE_ACC_SIZE_4BYTE]

/-! ## Frame lemmas: fields the hardware model never writes on given paths -/

theorem crW_frame (hw : Hw) (a v : Nat) :
    (crW hw a v).devId = hw.devId ∧
    (crW hw a v).gwLockVal = hw.gwLockVal ∧
    (crW hw a v).gwAddr = hw.gwAddr ∧
    (crW hw a v).gwCtl = hw.gwCtl ∧
    (crW hw a v).gwData = hw.gwData ∧
    (crW hw a v).gwAcqCnt = hw.gwAcqCnt ∧
    (crW hw a v).gwRelCnt = hw.gwRelCnt ∧
    (crW hw a v).dataReg = hw.dataReg := by
  unfold crW
  split_ifs <;>
    first
      | exact ⟨rfl, rfl, rfl, rfl, rfl, rfl, rfl, rfl⟩
      | (cases hw.wdatLo <;> exact ⟨rfl, rfl, rfl, rfl, rfl, rfl, rfl, rfl⟩)
      | (cases hw.fifoLo <;> exact ⟨rfl, rfl, rfl, rfl, rfl, rfl, rfl, rfl⟩)

theorem crR_frame (hw : Hw) (a : Nat) :
    ((crR hw a).2).devId = hw.devId ∧
    ((crR hw a).2).gwLockVal = hw.gwLockVal ∧
    ((crR hw a).2).gwAddr = hw.gwAddr ∧
    ((crR hw a).2).gwCtl = hw.gwCtl ∧
    ((crR hw a).2).gwData = hw.gwData ∧
    ((crR hw a).2).gwAcqCnt = hw.gwAcqCnt ∧
    ((crR hw a).2).gwRelCnt = hw.gwRelCnt ∧
    ((crR hw a).2).dataReg = hw.dataReg := by
  unfold crR
  split_ifs <;> exact ⟨rfl, rfl, rfl, rfl, rfl, rfl, rfl, rfl⟩

theorem crW_devId (hw : Hw) (a v : Nat) : (crW hw a v).devId = hw.devId :=
  (crW_frame hw a v).1

theorem crR_devId (hw : Hw) (a : Nat) : ((crR hw a).2).devId = hw.devId :=
  (crR_frame hw a).1

theorem capSpaceWrite_devId (hw : Hw) (a v : Nat) :
    (capSpaceWrite hw a v).devId = hw.devId := by
  unfold capSpaceWrite
  split_ifs <;> simp [crW_devId, crR_devId]

theorem capSpaceRead_devId (hw : Hw) (a : Nat) :
    ((capSpaceRead hw a).2).devId = hw.devId := by
  unfold capSpaceRead
  split_ifs <;> simp [crR_devId]

/-- Backend-state frame: PCI-level operations never change the write
counter, the has_rshim flag or the device id. -/
def FrameB (s t : Sim) : Prop :=
  t.write_count = s.write_count ∧ t.has_rshim = s.has_rshim ∧
    t.hw.devId = s.hw.devId ∧ t.ctrace.length ≥ s.ctrace.length

theorem frameB_refl (s : Sim) : FrameB s s := ⟨rfl, rfl, rfl, le_refl _⟩

theorem FrameB.trans {s t u : Sim} (h1 : FrameB s t) (h2 : FrameB t u) :
    FrameB s u :=
  ⟨h2.1.trans h1.1, h2.2.1.trans h1.2.1, h2.2.2.1.trans h1.2.2.1,
   le_trans h1.2.2.2 h2.2.2.2⟩

theorem frameB_pci_write_long (s : Sim) (off v : Nat) :
    FrameB s (pci_write_long s off v).2 := by
  unfold pci_write_long
  by_cases hf : s.faults.head?.getD false = true <;>
  by_cases h1 : off = 92 <;>
  by_cases h2 : off = 88 <;>
  by_cases h3 : v % 4294967296 % 2 = 1 <;>
    simp [hf, h1, h2, h3, FrameB, capSpaceWrite_devId, capSpaceRead_devId,
      MELLANOX_ADDR, MELLANOX_DATA]

theorem frameB_pci_read_long (s : Sim) (off : Nat) :
    FrameB s (pci_read_long s off).2 := by
  unfold pci_read_long
  by_cases hf : s.faults.head?.getD false = true <;>
  by_cases h1 : off = 92 <;>
    simp [hf, h1, FrameB, MELLANOX_DATA]

theorem frameB_pci_cap_read (s : Sim) (off : Nat) :
    FrameB s (pci_cap_read s off).2 := by
  unfold pci_cap_read
  rcases h1 : pci_write_long s MELLANOX_ADDR (off ||| MELLANOX_CAP_READ) with ⟨rc, t⟩
  have f1 := frameB_pci_write_long s MELLANOX_ADDR (off ||| MELLANOX_CAP_READ)
  rw [h1] at f1
  simp only [h1]
  split_ifs
  · exact f1
  · rcases h2 : pci_read_long t MELLANOX_DATA with ⟨x, u⟩
    have f2 := frameB_pci_read_long t MELLANOX_DATA
    rw [h2] at f2
    simp only [h2]
    exact f1.trans f2

theorem frameB_pci_cap_write (s : Sim) (off v : Nat) :
    FrameB s (pci_cap_write s off v).2 := by
  unfold pci_cap_write
  rcases h1 : pci_write_long s MELLANOX_DATA v with ⟨rc, t⟩
  have f1 := frameB_pci_write_long s MELLANOX_DATA v
  rw [h1] at f1
  simp only [h1]
  split_ifs
  · exact f1
  · exact f1.trans (frameB_pci_write_long t MELLANOX_ADDR off)
  · exact f1.trans (frameB_pci_write_long t MELLANOX_ADDR off)

theorem frameB_gw_acquire_go (f : Nat) :
    ∀ s : Sim, FrameB s (trio_cr_gw_lock_acquire_go f s).2 := by
  induction f with
  | zero =>
    intro s
    rw [trio_cr_gw_lock_acquire_go_zero]
    rcases h1 : pci_cap_read s TRIO_CR_GW_LOCK with ⟨⟨rc, v⟩, t⟩
    have f1 := frameB_pci_cap_read s TRIO_CR_GW_LOCK
    rw [h1] at f1
    simp only [h1]
    split_ifs <;> exact f1
  | succ f ih =>
    intro s
    rw [trio_cr_gw_lock_acquire_go_succ]
    rcases h1 : pci_cap_read s TRIO_CR_GW_LOCK with ⟨⟨rc, v⟩, t⟩
    have f1 := frameB_pci_cap_read s TRIO_CR_GW_LOCK
    rw [h1] at f1
    simp only [h1]
    split_ifs <;>
      first
        | exact f1
        | exact f1.trans (ih t)
        | exact f1.trans (frameB_pci_cap_write t _ _)

theorem frameB_gw_acquire (s : Sim) : FrameB s (trio_cr_gw_lock_acquire s).2 :=
  frameB_gw_acquire_go LOCK_RETRY_CNT s

theorem frameB_gw_release (s : Sim) : FrameB s (trio_cr_gw_lock_release s).2 :=
  frameB_pci_cap_write s _ _

theorem frameB_seqRc {s : Sim} {p : Int × Sim} {k : Sim → Int × Sim}
    (hp : FrameB s p.2) (hk : ∀ t, FrameB t (k t).2) : FrameB s (seqRc p k).2 := by
  unfold seqRc
  split_ifs
  · exact hp
  · exact hp.trans (hk p.2)

theorem frameB_seqRcV {s : Sim} {p : Int × Sim} {k : Sim → (Int × Nat) × Sim}
    (hp : FrameB s p.2) (hk : ∀ t, FrameB t (k t).2) : FrameB s (seqRcV p k).2 := by
  unfold seqRcV
  split_ifs
  · exact hp
  · exact hp.trans (hk p.2)

theorem frameB_gwReadTail {s : Sim} {q : (Int × Nat) × Sim} (hq : FrameB s q.2) :
    FrameB s (gwReadTail q).2 := by
  unfold gwReadTail
  split_ifs with h
  · exact hq
  · rcases h2 : trio_cr_gw_lock_release q.2 with ⟨rc, t⟩
    have f2 := frameB_gw_release q.2
    rw [h2] at f2
    simp only [h2]
    split_ifs
    · exact hq.trans f2
    · exact hq.trans f2

theorem frameB_crspace_write (s : Sim) (addr v : Nat) :
    FrameB s (crspace_rsh_gw_write s addr v).2 := by
  unfold crspace_rsh_gw_write
  dsimp only
  have h0 : FrameB s
      { s with ctrace := s.ctrace ++ [CrEv.wr addr (v % 4294967296)] } :=
    ⟨rfl, rfl, rfl, by simp⟩
  split_ifs
  · exact h0.trans (frameB_pci_cap_write _ _ _)
  all_goals
    exact h0.trans (frameB_seqRc (frameB_gw_acquire _) fun t1 =>
      frameB_seqRc (frameB_pci_cap_write _ _ _) fun t2 =>
      frameB_seqRc (frameB_pci_cap_write _ _ _) fun t3 =>
      frameB_seqRc (frameB_pci_cap_write _ _ _) fun t4 =>
      frameB_seqRc (frameB_pci_cap_write _ _ _) fun t5 =>
      frameB_seqRc (frameB_gw_release _) fun t6 => frameB_refl _)

theorem frameB_crspace_read (s : Sim) (addr : Nat) :
    FrameB s (crspace_rsh_gw_read s addr).2 := by
  unfold crspace_rsh_gw_read
  dsimp only
  have h0 : FrameB s { s with ctrace := s.ctrace ++ [CrEv.rd addr] } :=
    ⟨rfl, rfl, rfl, by simp⟩
  split_ifs
  · exact h0.trans (frameB_pci_cap_read _ _)
  · exact h0.trans (frameB_seqRcV (frameB_gw_acquire _) fun t1 =>
      frameB_seqRcV (frameB_pci_cap_write _ _ _) fun t2 =>
      frameB_seqRcV (frameB_pci_cap_write _ _ _) fun t3 =>
      frameB_seqRcV (frameB_pci_cap_write _ _ _) fun t4 =>
      frameB_gwReadTail (frameB_pci_cap_read _ _))

theorem frameB_pending_go (f : Nat) :
    ∀ s : Sim, FrameB s (rshim_byte_acc_pending_wait_go f s).2 := by
  induction f with
  | zero =>
    intro s
    rw [rshim_byte_acc_pending_wait_go_zero]
    rcases h1 : crspace_rsh_gw_read s RSH_BYTE_ACC_CTL with ⟨⟨rc, v⟩, t⟩
    have f1 := frameB_crspace_read s RSH_BYTE_ACC_CTL
    rw [h1] at f1
    simp only [h1]
    split_ifs <;> exact f1
  | succ f ih =>
    intro s
    rw [rshim_byte_acc_pending_wait_go_succ]
    rcases h1 : crspace_rsh_gw_read s RSH_BYTE_ACC_CTL with ⟨⟨rc, v⟩, t⟩
    have f1 := frameB_crspace_read s RSH_BYTE_ACC_CTL
    rw [h1] at f1
    simp only [h1]
    split_ifs <;>
      first
        | exact f1
        | exact f1.trans (ih t)

theorem frameB_pending (s : Sim) : FrameB s (rshim_byte_acc_pending_wait s).2 :=
  frameB_pending_go LOCK_RETRY_CNT s

theorem frameB_il_acquire_go (f : Nat) :
    ∀ s : Sim, FrameB s (rshim_byte_acc_lock_acquire_go f s).2 := by
  induction f with
  | zero => intro s; exact frameB_refl s
  | succ f ih =>
    intro s
    rw [rshim_byte_acc_lock_acquire_go_succ]
    rcases h1 : crspace_rsh_gw_read s RSH_BYTE_ACC_INTERLOCK with ⟨⟨rc, v⟩, t⟩
    have f1 := frameB_crspace_read s RSH_BYTE_ACC_INTERLOCK
    rw [h1] at f1
    simp only [h1]
    split_ifs <;>
      first
        | exact f1
        | exact f1.trans (ih t)

theorem frameB_il_acquire (s : Sim) :
    FrameB s (rshim_byte_acc_lock_acquire s).2 :=
  frameB_il_acquire_go LOCK_RETRY_CNT s

theorem frameB_il_release (s : Sim) :
    FrameB s (rshim_byte_acc_lock_release s).2 :=
  frameB_crspace_write s _ _

theorem frameB_read_exit (rc : Int) (res : Nat) (s : Sim) :
    FrameB s (rshim_byte_acc_read_exit rc res s).2 := by
  unfold rshim_byte_acc_read_exit
  split_ifs
  · exact frameB_il_release s
  · exact frameB_refl s

theorem frameB_write_exit (rc : Int) (s : Sim) :
    FrameB s (rshim_byte_acc_write_exit rc s).2 := by
  unfold rshim_byte_acc_write_exit
  split_ifs
  · exact frameB_il_release s
  · exact frameB_refl s

theorem frameB_rdStep {s : Sim} {p : Int × Sim} {k : Sim → (Int × Nat) × Sim}
    (hp : FrameB s p.2) (hk : ∀ t, FrameB t (k t).2) : FrameB s (rdStep p k).2 := by
  unfold rdStep
  split_ifs
  · exact hp.trans (frameB_read_exit _ _ _)
  · exact hp.trans (hk p.2)

theorem frameB_rdStepV {s : Sim} {p : (Int × Nat) × Sim}
    {k : Nat → Sim → (Int × Nat) × Sim}
    (hp : FrameB s p.2) (hk : ∀ v t, FrameB t (k v t).2) :
    FrameB s (rdStepV p k).2 := by
  unfold rdStepV
  split_ifs
  · exact hp.trans (frameB_read_exit _ _ _)
  · exact hp.trans (hk p.1.2 p.2)

theorem frameB_wrStep {s : Sim} {p : Int × Sim} {k : Sim → Int × Sim}
    (hp : FrameB s p.2) (hk : ∀ t, FrameB t (k t).2) : FrameB s (wrStep p k).2 := by
  unfold wrStep
  split_ifs
  · exact hp.trans (frameB_write_exit _ _)
  · exact hp.trans (hk p.2)

theorem frameB_byte_acc_read (s : Sim) (addr : Nat) :
    FrameB s (rshim_byte_acc_read s addr).2 := by
  unfold rshim_byte_acc_read
  exact frameB_seqRcV (frameB_pending s) fun t1 =>
    frameB_seqRcV
      (by split_ifs
          · exact frameB_il_acquire t1
          · exact frameB_refl t1) fun t2 =>
    frameB_rdStep (frameB_crspace_write _ _ _) fun t3 =>
    frameB_rdStep (frameB_crspace_write _ _ _) fun t4 =>
    frameB_rdStep (frameB_pending _) fun t5 =>
    frameB_rdStepV (frameB_crspace_read _ _) fun lo t6 =>
    frameB_rdStep (frameB_pending _) fun t7 =>
    frameB_rdStepV (frameB_crspace_read _ _) fun hi t8 =>
    frameB_read_exit _ _ _

theorem frameB_byte_acc_write (s : Sim) (addr value : Nat) :
    FrameB s (rshim_byte_acc_write s addr value).2 := by
  unfold rshim_byte_acc_write
  exact frameB_seqRc
      (by split_ifs
          · exact frameB_il_acquire s
          · exact frameB_refl s) fun t1 =>
    frameB_seqRc (frameB_crspace_write _ _ _) fun t2 =>
    frameB_wrStep (frameB_crspace_write _ _ _) fun t3 =>
    frameB_wrStep (frameB_crspace_write _ _ _) fun t4 =>
    frameB_wrStep (frameB_pending _) fun t5 =>
    (frameB_crspace_write _ _ _).trans (frameB_write_exit _ _)

theorem frameB_boot_fifo_write (s : Sim) (addr value : Nat) :
    FrameB s (rshim_boot_fifo_write s addr value).2 := by
  unfold rshim_boot_fifo_write
  exact frameB_seqRc (frameB_crspace_write _ _ _) fun t1 =>
    frameB_seqRc (frameB_crspace_write _ _ _) fun t2 => frameB_refl t2

/-! ## Helper projections and generic fault-free capability operations -/

theorem crW_gwAcqCnt (hw : Hw) (a v : Nat) :
    (crW hw a v).gwAcqCnt = hw.gwAcqCnt :=
  (crW_frame hw a v).2.2.2.2.2.1

theorem crW_gwRelCnt (hw : Hw) (a v : Nat) :
    (crW hw a v).gwRelCnt = hw.gwRelCnt :=
  (crW_frame hw a v).2.2.2.2.2.2.1

theorem crW_gwLockVal (hw : Hw) (a v : Nat) :
    (crW hw a v).gwLockVal = hw.gwLockVal :=
  (crW_frame hw a v).2.1

theorem crW_gwAddr (hw : Hw) (a v : Nat) :
    (crW hw a v).gwAddr = hw.gwAddr :=
  (crW_frame hw a v).2.2.1

theorem crR_gwAcqCnt (hw : Hw) (a : Nat) :
    ((crR hw a).2).gwAcqCnt = hw.gwAcqCnt :=
  (crR_frame hw a).2.2.2.2.2.1

theorem crR_gwRelCnt (hw : Hw) (a : Nat) :
    ((crR hw a).2).gwRelCnt = hw.gwRelCnt :=
  (crR_frame hw a).2.2.2.2.2.2.1

theorem crR_gwLockVal (hw : Hw) (a : Nat) :
    ((crR hw a).2).gwLockVal = hw.gwLockVal :=
  (crR_frame hw a).2.1

theorem crR_gwAddr (hw : Hw) (a : Nat) :
    ((crR hw a).2).gwAddr = hw.gwAddr :=
  (crR_frame hw a).2.2.1

/-- Fault-free pci_cap_write at an even 32-bit capability offset: set the
data register, then commit it through the address register. -/
theorem cap_write_ff (s : Sim) (off v : Nat) (hff : s.faults = [])
    (he : off % 2 = 0) (hlt : off < 4294967296) :
    pci_cap_write s off v =
      (0, { s with
            hw := capSpaceWrite { s.hw with dataReg := v % 4294967296 }
                    off (v % 4294967296),
            faults := [],
            pciOps := s.pciOps + 2 }) := by
  simp [pci_cap_write, pci_write_long, hff, MELLANOX_ADDR, MELLANOX_DATA,
    Nat.mod_eq_of_lt hlt, he, Nat.add_assoc]

/-- Fault-free pci_cap_read at an even capability offset below 2^32 - 1:
latch a CR read through the address register, then fetch it from the data
register. -/
theorem cap_read_ff (s : Sim) (off : Nat) (hff : s.faults = [])
    (he : off % 2 = 0) (hlt : off + 1 < 4294967296) :
    pci_cap_read s off =
      ((0, (capSpaceRead s.hw off).1),
       { s with
         hw := { (capSpaceRead s.hw off).2 with
                 dataReg := (capSpaceRead s.hw off).1 },
         faults := [],
         pciOps := s.pciOps + 2 }) := by
  have h1 : off ||| 1 = off + 1 := or_one_of_even he
  have h2 : (off + 1) % 2 = 1 := by omega
  simp [pci_cap_read, pci_write_long, pci_read_long, hff, MELLANOX_ADDR,
    MELLANOX_DATA, MELLANOX_CAP_READ, h1, h2, Nat.mod_eq_of_lt hlt,
    Nat.add_assoc]

/-! ## Dispatcher-level equations (rshim_pcie_read / rshim_pcie_write) -/

theorem pcie_read_eq (s : Sim) (chan addr : Nat) (hr : s.has_rshim = true) :
    rshim_pcie_read s chan addr =
      rshim_byte_acc_read { s with write_count := 0 }
        (RSH_CHANNEL_BASE chan + addr) := by
  simp [rshim_pcie_read, hr]

theorem pcie_read_nodev (s : Sim) (chan addr : Nat)
    (hr : s.has_rshim = false) :
    rshim_pcie_read s chan addr = ((-ENODEV, 0), s) := by
  simp [rshim_pcie_read, hr]

theorem pcie_write_bf1_eq (s : Sim) (chan addr value : Nat)
    (hr : s.has_rshim = true) (hdev : s.hw.devId = BLUEFIELD1_DEVICE_ID)
    (h7 : s.write_count ≠ 7) :
    rshim_pcie_write s chan addr value =
      (if addr = RSH_BOOT_FIFO_DATA then
         rshim_boot_fifo_write { s with write_count := (s.write_count + 1) % 256 }
           (RSH_CHANNEL_BASE chan + addr) (value % 18446744073709551616)
       else
         rshim_byte_acc_write { s with write_count := (s.write_count + 1) % 256 }
           (RSH_CHANNEL_BASE chan + addr) (value % 18446744073709551616)) := by
  simp [rshim_pcie_write, hr, hdev, h7]

theorem pcie_write_bf1_drain_eq (s : Sim) (chan addr value : Nat)
    (hr : s.has_rshim = true) (hdev : s.hw.devId = BLUEFIELD1_DEVICE_ID)
    (h7 : s.write_count = 7) :
    rshim_pcie_write s chan addr value =
      (if addr = RSH_BOOT_FIFO_DATA then
         rshim_boot_fifo_write
           { (rshim_pcie_read s chan RSH_SCRATCHPAD).2 with
             write_count :=
               ((rshim_pcie_read s chan RSH_SCRATCHPAD).2.write_count + 1) % 256 }
           (RSH_CHANNEL_BASE chan + addr) (value % 18446744073709551616)
       else
         rshim_byte_acc_write
           { (rshim_pcie_read s chan RSH_SCRATCHPAD).2 with
             write_count :=
               ((rshim_pcie_read s chan RSH_SCRATCHPAD).2.write_count + 1) % 256 }
           (RSH_CHANNEL_BASE chan + addr) (value % 18446744073709551616)) := by
  simp [rshim_pcie_write, hr, hdev, h7]

theorem pcie_write_bf2_eq (s : Sim) (chan addr value : Nat)
    (hr : s.has_rshim = true) (hdev : s.hw.devId = BLUEFIELD2_DEVICE_ID) :
    rshim_pcie_write s chan addr value =
      (if addr = RSH_BOOT_FIFO_DATA then
         rshim_boot_fifo_write s (RSH_CHANNEL_BASE chan + addr)
           (value % 18446744073709551616)
       else
         rshim_byte_acc_write s (RSH_CHANNEL_BASE chan + addr)
           (value % 18446744073709551616)) := by
  simp +decide [rshim_pcie_write, hr, hdev,
    BLUEFIELD1_DEVICE_ID, BLUEFIELD2_DEVICE_ID]

theorem pcie_write_nodev (s : Sim) (chan addr value : Nat)
    (hr : s.has_rshim = false) :
    rshim_pcie_write s chan addr value = (-ENODEV, s) := by
  simp [rshim_pcie_write, hr]

/-! ## Per-offset capability-space write equations (gateway registers) -/

theorem capW_data (hw : Hw) (v : Nat) :
    capSpaceWrite hw TRIO_CR_GW_DATA_LOWER v = { hw with gwData := v } := by
  simp +decide [capSpaceWrite, TRIO_CR_GW_DATA_LOWER, TRIO_CR_GW_LOCK,
    TRIO_CR_GW_ADDR_LOWER, TRIO_CR_GW_CTL, CRSPACE_RSH_CHANNEL1_BASE]

theorem capW_addr (hw : Hw) (v : Nat) :
    capSpaceWrite hw TRIO_CR_GW_ADDR_LOWER v = { hw with gwAddr := v } := by
  simp +decide [capSpaceWrite, TRIO_CR_GW_DATA_LOWER, TRIO_CR_GW_LOCK,
    TRIO_CR_GW_ADDR_LOWER, TRIO_CR_GW_CTL, CRSPACE_RSH_CHANNEL1_BASE]

theorem capW_ctl (hw : Hw) (v : Nat) :
    capSpaceWrite hw TRIO_CR_GW_CTL v = { hw with gwCtl := v } := by
  simp +decide [capSpaceWrite, TRIO_CR_GW_DATA_LOWER, TRIO_CR_GW_LOCK,
    TRIO_CR_GW_ADDR_LOWER, TRIO_CR_GW_CTL, CRSPACE_RSH_CHANNEL1_BASE]

theorem capW_lock_rel (hw : Hw) :
    capSpaceWrite hw TRIO_CR_GW_LOCK 0 =
      { hw with gwLockVal := 0, gwRelCnt := hw.gwRelCnt + 1 } := by
  simp +decide [capSpaceWrite, TRIO_CR_GW_LOCK, TRIO_CR_GW_TRIGGER,
    TRIO_CR_GW_LOCK_ACQUIRED]

theorem capW_trigger_wr (hw : Hw) (h : hw.gwCtl = TRIO_CR_GW_WRITE_4BYTE) :
    capSpaceWrite hw TRIO_CR_GW_LOCK TRIO_CR_GW_TRIGGER =
      { crW hw hw.gwAddr (ntohl hw.gwData) with
        gwLockVal := TRIO_CR_GW_LOCK_ACQUIRED } := by
  simp +decide [capSpaceWrite, h, TRIO_CR_GW_LOCK, TRIO_CR_GW_TRIGGER,
    TRIO_CR_GW_WRITE_4BYTE, TRIO_CR_GW_READ_4BYTE, TRIO_CR_GW_LOCK_ACQUIRED]

theorem capW_trigger_rd (hw : Hw) (h : hw.gwCtl = TRIO_CR_GW_READ_4BYTE) :
    capSpaceWrite hw TRIO_CR_GW_LOCK TRIO_CR_GW_TRIGGER =
      { (crR hw hw.gwAddr).2 with
        gwData := htonl (crR hw hw.gwAddr).1,
        gwLockVal := TRIO_CR_GW_LOCK_ACQUIRED } := by
  rcases hx : crR hw hw.gwAddr with ⟨x, hw2⟩
  simp +decide [capSpaceWrite, h, hx, TRIO_CR_GW_LOCK, TRIO_CR_GW_TRIGGER,
    TRIO_CR_GW_READ_4BYTE, TRIO_CR_GW_LOCK_ACQUIRED]

theorem capR_data (hw : Hw) :
    capSpaceRead hw TRIO_CR_GW_DATA_LOWER = (hw.gwData, hw) := by
  simp +decide [capSpaceRead, TRIO_CR_GW_DATA_LOWER, TRIO_CR_GW_LOCK,
    CRSPACE_RSH_CHANNEL1_BASE]

theorem trig_mod : TRIO_CR_GW_TRIGGER % 4294967296 = TRIO_CR_GW_TRIGGER := by
  decide

theorem w4_mod :
    TRIO_CR_GW_WRITE_4BYTE % 4294967296 = TRIO_CR_GW_WRITE_4BYTE := by
  decide

theorem r4_mod :
    TRIO_CR_GW_READ_4BYTE % 4294967296 = TRIO_CR_GW_READ_4BYTE := by
  decide

theorem rel_mod : TRIO_CR_GW_LOCK_RELEASE % 4294967296 = 0 := by
  decide

/-! ## General fault-free gateway transactions on the legacy revision:
projections that hold for an arbitrary target address -/

set_option maxHeartbeats 1000000 in
/-- A fault-free legacy-revision CR-space gateway write succeeds, acquires
and releases the gateway lock exactly once, leaves the lock free, and
latches the (conditionally rebased) target address. -/
theorem bf1_gw_write_free_proj (s : Sim) (addr v : Nat)
    (hdev : s.hw.devId = BLUEFIELD1_DEVICE_ID) (hff : s.faults = [])
    (hlock : s.hw.gwLockVal = 0) :
    (crspace_rsh_gw_write s addr v).1 = 0 ∧
    (crspace_rsh_gw_write s addr v).2.hw.gwAcqCnt = s.hw.gwAcqCnt + 1 ∧
    (crspace_rsh_gw_write s addr v).2.hw.gwRelCnt = s.hw.gwRelCnt + 1 ∧
    (crspace_rsh_gw_write s addr v).2.hw.gwLockVal = 0 ∧
    (crspace_rsh_gw_write s addr v).2.hw.gwAddr =
      (if addr % 65536 ≠ RSH_BOOT_FIFO_DATA
       then addr + RSH_CHANNEL_BASE RSHIM_CHANNEL else addr) % 4294967296 := by
  have hne : BLUEFIELD1_DEVICE_ID ≠ BLUEFIELD2_DEVICE_ID := by decide
  simp +decide [crspace_rsh_gw_write, seqRc_ok, gw_acquire_free, cap_write_ff,
    trio_cr_gw_lock_release, capW_data, capW_addr, capW_ctl, capW_lock_rel,
    capW_trigger_wr, crW_gwAcqCnt, crW_gwRelCnt, crW_gwLockVal,
    crW_gwAddr, ntohl_htonl, htonl_mod, trig_mod, w4_mod, rel_mod, hdev, hne,
    hff, hlock, and_mask_mod, modmod32, Nat.add_assoc]

set_option maxHeartbeats 1000000 in
/-- A fault-free legacy-revision CR-space gateway read succeeds, acquires
and releases the gateway lock exactly once, and leaves the lock free. -/
theorem bf1_gw_read_free_proj (s : Sim) (addr : Nat)
    (hdev : s.hw.devId = BLUEFIELD1_DEVICE_ID) (hff : s.faults = [])
    (hlock : s.hw.gwLockVal = 0) :
    (crspace_rsh_gw_read s addr).1.1 = 0 ∧
    (crspace_rsh_gw_read s addr).2.hw.gwAcqCnt = s.hw.gwAcqCnt + 1 ∧
    (crspace_rsh_gw_read s addr).2.hw.gwRelCnt = s.hw.gwRelCnt + 1 ∧
    (crspace_rsh_gw_read s addr).2.hw.gwLockVal = 0 := by
  have hne : BLUEFIELD1_DEVICE_ID ≠ BLUEFIELD2_DEVICE_ID := by decide
  simp +decide [crspace_rsh_gw_read, seqRcV_ok, gwReadTail, gw_acquire_free,
    cap_write_ff, cap_read_ff, trio_cr_gw_lock_release, capW_data, capW_addr,
    capW_ctl, capW_lock_rel, capW_trigger_rd, capR_data, crR_gwAcqCnt,
    crR_gwRelCnt, crR_gwLockVal, crR_gwAddr, ntohl_htonl, htonl_mod, trig_mod,
    r4_mod, rel_mod, hdev, hne, hff, hlock, and_mask_mod, modmod32,
    Nat.add_assoc]

/-! ## Claim theorems -/

/-- Claim C2 (amended): on the legacy revision a fault-free CR-space
gateway read or write with the gateway lock initially free succeeds and
acquires and releases the gateway lock exactly once.  (The original
claim's "released on every error exit" is refuted by c2_counterexample.) -/
theorem c2_gw_lock_balance (s : Sim) (addr v : Nat)
    (hdev : s.hw.devId = BLUEFIELD1_DEVICE_ID) (hff : s.faults = [])
    (hlock : s.hw.gwLockVal = 0) :
    ((crspace_rsh_gw_write s addr v).1 = 0 ∧
     (crspace_rsh_gw_write s addr v).2.hw.gwAcqCnt = s.hw.gwAcqCnt + 1 ∧
     (crspace_rsh_gw_write s addr v).2.hw.gwRelCnt = s.hw.gwRelCnt + 1) ∧
    ((crspace_rsh_gw_read s addr).1.1 = 0 ∧
     (crspace_rsh_gw_read s addr).2.hw.gwAcqCnt = s.hw.gwAcqCnt + 1 ∧
     (crspace_rsh_gw_read s addr).2.hw.gwRelCnt = s.hw.gwRelCnt + 1) := by
  have hw := bf1_gw_write_free_proj s addr v hdev hff hlock
  have hr := bf1_gw_read_free_proj s addr hdev hff hlock
  exact ⟨⟨hw.1, hw.2.1, hw.2.2.1⟩, hr.1, hr.2.1, hr.2.2.1⟩

/-- Witness for c2_gw_lock_balance at a concrete idle legacy device. -/
theorem c2_gw_lock_balance_witness :
    ((initSim BLUEFIELD1_DEVICE_ID []).hw.devId = BLUEFIELD1_DEVICE_ID ∧
     (initSim BLUEFIELD1_DEVICE_ID []).faults = [] ∧
     (initSim BLUEFIELD1_DEVICE_ID []).hw.gwLockVal = 0) ∧
    (((crspace_rsh_gw_write (initSim BLUEFIELD1_DEVICE_ID [])
         RSH_SCRATCHPAD 5).1 = 0 ∧
      (crspace_rsh_gw_write (initSim BLUEFIELD1_DEVICE_ID [])
         RSH_SCRATCHPAD 5).2.hw.gwAcqCnt =
        (initSim BLUEFIELD1_DEVICE_ID []).hw.gwAcqCnt + 1 ∧
      (crspace_rsh_gw_write (initSim BLUEFIELD1_DEVICE_ID [])
         RSH_SCRATCHPAD 5).2.hw.gwRelCnt =
        (initSim BLUEFIELD1_DEVICE_ID []).hw.gwRelCnt + 1) ∧
     ((crspace_rsh_gw_read (initSim BLUEFIELD1_DEVICE_ID [])
         RSH_SCRATCHPAD).1.1 = 0 ∧
      (crspace_rsh_gw_read (initSim BLUEFIELD1_DEVICE_ID [])
         RSH_SCRATCHPAD).2.hw.gwAcqCnt =
        (initSim BLUEFIELD1_DEVICE_ID []).hw.gwAcqCnt + 1 ∧
      (crspace_rsh_gw_read (initSim BLUEFIELD1_DEVICE_ID [])
         RSH_SCRATCHPAD).2.hw.gwRelCnt =
        (initSim BLUEFIELD1_DEVICE_ID []).hw.gwRelCnt + 1)) :=
  ⟨⟨by decide, by decide, by decide⟩,
   c2_gw_lock_balance (initSim BLUEFIELD1_DEVICE_ID []) RSH_SCRATCHPAD 5
     (by decide) (by decide) (by decide)⟩

/-- Claim C2 (counterexample): on the legacy revision, if the write of the
data register fails after the gateway lock has been acquired (fault
schedule: the four acquire accesses succeed, the fifth access faults), the
CR-space gateway write returns the error with the lock still held: one
acquisition, zero releases. -/
theorem c2_counterexample :
    (crspace_rsh_gw_write
        (initSim BLUEFIELD1_DEVICE_ID [false, false, false, false, true])
        RSH_SCRATCHPAD 5).1 = -EIO_ERR ∧
    (crspace_rsh_gw_write
        (initSim BLUEFIELD1_DEVICE_ID [false, false, false, false, true])
        RSH_SCRATCHPAD 5).2.hw.gwAcqCnt = 1 ∧
    (crspace_rsh_gw_write
        (initSim BLUEFIELD1_DEVICE_ID [false, false, false, false, true])
        RSH_SCRATCHPAD 5).2.hw.gwRelCnt = 0 := by
  decide

/-- Claim C3 (code bug): on the newer revision, a failure of the
RSH_BYTE_ACC_ADDR write (the first CR-space operation after the interlock
acquisition; fault schedule: the two acquire accesses succeed, the third
access faults) makes rshim_byte_acc_write return directly, bypassing the
exit_write interlock release: the interlock stays held. -/
theorem c3_interlock_leak :
    (rshim_byte_acc_write
        (initSim BLUEFIELD2_DEVICE_ID [false, false, true]) 66336 5).1 = -EIO_ERR ∧
    (rshim_byte_acc_write
        (initSim BLUEFIELD2_DEVICE_ID [false, false, true])
        66336 5).2.hw.ilAcqCnt = 1 ∧
    (rshim_byte_acc_write
        (initSim BLUEFIELD2_DEVICE_ID [false, false, true])
        66336 5).2.hw.ilRelCnt = 0 ∧
    (rshim_byte_acc_write
        (initSim BLUEFIELD2_DEVICE_ID [false, false, true])
        66336 5).2.hw.ilFree = false := by
  decide

/-- Claim C4 (amended): on the newer revision the shared error exits of the
8-byte widget write and read return the interlock release's own result in
place of the triggering error; concretely, a run in which the control-write
step fails with a bus error but the interlock release succeeds returns 0. -/
theorem c4_release_overwrites_rc (rc : Int) (res : Nat) (s : Sim)
    (hdev : s.hw.devId = BLUEFIELD2_DEVICE_ID) :
    rshim_byte_acc_write_exit rc s = rshim_byte_acc_lock_release s ∧
    rshim_byte_acc_read_exit rc res s =
      (((rshim_byte_acc_lock_release s).1, res),
       (rshim_byte_acc_lock_release s).2) ∧
    (rshim_byte_acc_write
        (initSim BLUEFIELD2_DEVICE_ID [false, false, false, false, true])
        66336 5).1 = 0 := by
  refine ⟨?_, ?_, by decide⟩
  · simp [rshim_byte_acc_write_exit, hdev]
  · simp [rshim_byte_acc_read_exit, hdev]

/-- Witness for c4_release_overwrites_rc at a concrete error code and
state. -/
theorem c4_release_overwrites_rc_witness :
    (initSim BLUEFIELD2_DEVICE_ID []).hw.devId = BLUEFIELD2_DEVICE_ID ∧
    (rshim_byte_acc_write_exit (-5) (initSim BLUEFIELD2_DEVICE_ID []) =
       rshim_byte_acc_lock_release (initSim BLUEFIELD2_DEVICE_ID []) ∧
     rshim_byte_acc_read_exit (-5) 7 (initSim BLUEFIELD2_DEVICE_ID []) =
       (((rshim_byte_acc_lock_release (initSim BLUEFIELD2_DEVICE_ID [])).1, 7),
        (rshim_byte_acc_lock_release (initSim BLUEFIELD2_DEVICE_ID [])).2) ∧
     (rshim_byte_acc_write
         (initSim BLUEFIELD2_DEVICE_ID [false, false, false, false, true])
         66336 5).1 = 0) :=
  ⟨by decide,
   c4_release_overwrites_rc (-5) 7 (initSim BLUEFIELD2_DEVICE_ID [])
     (by decide)⟩

/-- Claim C4 (counterexample): on the newer revision with fault schedule
[false, false, false, false, true] (interlock acquire and address write
succeed, the control write faults, the interlock release succeeds), the
8-byte widget write returns 0 rather than the first observed error: the CR
trace shows the control write was issued but the data writes never were,
and the 64-bit location is untouched. -/
theorem c4_counterexample :
    (rshim_byte_acc_write
        (initSim BLUEFIELD2_DEVICE_ID [false, false, false, false, true])
        66336 5).1 = 0 ∧
    (rshim_byte_acc_write
        (initSim BLUEFIELD2_DEVICE_ID [false, false, false, false, true])
        66336 5).2.hw.mem64 66336 = 0 ∧
    (rshim_byte_acc_write
        (initSim BLUEFIELD2_DEVICE_ID [false, false, false, false, true])
        66336 5).2.ctrace =
      [CrEv.rd RSH_BYTE_ACC_INTERLOCK,
       CrEv.wr RSH_BYTE_ACC_ADDR 66336,
       CrEv.wr RSH_BYTE_ACC_CTL 1536,
       CrEv.wr RSH_BYTE_ACC_INTERLOCK 0] := by
  decide

/-- Claim C8 (amended): pci_cap_read returns a bus error exactly when the
address-select write fails; a failing data-register read is undetectable
(pci_read_long returns no status) and the call still returns 0. -/
theorem c8_capRead_error_policy (s : Sim) (off : Nat) :
    (s.faults.headD false = true →
       pci_cap_read s off =
         ((-EIO_ERR, 0),
          { s with faults := s.faults.tail, pciOps := s.pciOps + 1 })) ∧
    (s.faults.headD false = false → (pci_cap_read s off).1.1 = 0) := by
  constructor
  · intro hf
    rw [List.headD_eq_head?_getD] at hf
    simp [pci_cap_read, pci_write_long, hf, EIO_ERR]
  · intro hf
    rw [List.headD_eq_head?_getD] at hf
    have h1 : (off ||| 1) % 4294967296 % 2 = 1 := by
      rw [Nat.mod_mod_of_dvd _ (by norm_num)]
      rcases Nat.even_or_odd off with he | ho
      · have h0 : off % 2 = 0 := Nat.even_iff.mp he
        rw [or_one_of_even h0]
        omega
      · have h0 : off % 2 = 1 := Nat.odd_iff.mp ho
        have : off ||| 1 = off := by
          apply Nat.eq_of_testBit_eq
          intro i
          rcases i with _ | j
          · simp [Nat.testBit_or, Nat.testBit_zero]
            omega
          · have h1f : Nat.testBit 1 (j + 1) = false :=
              Nat.testBit_lt_two_pow (by
                have h2 : 2 ^ 1 ≤ 2 ^ (j + 1) :=
                  Nat.pow_le_pow_right (by norm_num) (by omega)
                omega)
            simp only [Nat.testBit_or, h1f, Bool.or_false]
        rw [this, h0]
    simp [pci_cap_read, pci_write_long, pci_read_long, hf, MELLANOX_ADDR,
      MELLANOX_DATA, MELLANOX_CAP_READ, h1]

/-- Witness for c8_capRead_error_policy on a faulting first access. -/
theorem c8_capRead_error_policy_witness :
    ((initSim BLUEFIELD1_DEVICE_ID [true]).faults.headD false = true ∧
     pci_cap_read (initSim BLUEFIELD1_DEVICE_ID [true]) TRIO_CR_GW_LOCK =
       ((-EIO_ERR, 0),
        { initSim BLUEFIELD1_DEVICE_ID [true] with
          faults := (initSim BLUEFIELD1_DEVICE_ID [true]).faults.tail,
          pciOps := (initSim BLUEFIELD1_DEVICE_ID [true]).pciOps + 1 })) :=
  ⟨by decide,
   (c8_capRead_error_policy (initSim BLUEFIELD1_DEVICE_ID [true])
      TRIO_CR_GW_LOCK).1 (by decide)⟩

/-- Claim C8 (counterexample): with fault schedule [false, true] the
address-select write succeeds and the data-register read faults, yet
pci_cap_read returns 0 (no BusError), handing back the garbage bus value. -/
theorem c8_counterexample :
    (pci_cap_read (initSim BLUEFIELD1_DEVICE_ID [false, true])
        TRIO_CR_GW_LOCK).1.1 = 0 ∧
    (pci_cap_read (initSim BLUEFIELD1_DEVICE_ID [false, true])
        TRIO_CR_GW_LOCK).1.2 = 0xbadbad := by
  decide

/-- Claim C9 (amended): a successful 8-byte widget write on the newer
revision issues exactly the CR-space sequence: interlock acquire read,
ACC_ADDR write, ACC_CTL size write, low WDAT write, one pending-bit wait
(control-register read), high WDAT write, interlock release write — a
single pending wait, placed between the two WDAT writes. -/
theorem c9_write_sequence (s : Sim) (addr value : Nat)
    (hdev : s.hw.devId = BLUEFIELD2_DEVICE_ID) (hff : s.faults = [])
    (hil : s.hw.ilFree = true) (hwl : s.hw.wdatLo = none) :
    (rshim_byte_acc_write s addr value).1 = 0 ∧
    (rshim_byte_acc_write s addr value).2.ctrace =
      s.ctrace ++
        [CrEv.rd RSH_BYTE_ACC_INTERLOCK,
         CrEv.wr RSH_BYTE_ACC_ADDR (addr % 4294967296),
         CrEv.wr RSH_BYTE_ACC_CTL 1536,
         CrEv.wr RSH_BYTE_ACC_WDAT (value % 4294967296),
         CrEv.rd RSH_BYTE_ACC_CTL,
         CrEv.wr RSH_BYTE_ACC_WDAT ((value >>> 32) % 4294967296),
         CrEv.wr RSH_BYTE_ACC_INTERLOCK 0] := by
  rw [bf2_byte_acc_write_ok s addr value hdev hff hil hwl]
  exact ⟨rfl, rfl⟩

/-- Witness for c9_write_sequence at a concrete idle newer-revision
device. -/
theorem c9_write_sequence_witness :
    ((initSim BLUEFIELD2_DEVICE_ID []).hw.devId = BLUEFIELD2_DEVICE_ID ∧
     (initSim BLUEFIELD2_DEVICE_ID []).faults = [] ∧
     (initSim BLUEFIELD2_DEVICE_ID []).hw.ilFree = true ∧
     (initSim BLUEFIELD2_DEVICE_ID []).hw.wdatLo = none) ∧
    ((rshim_byte_acc_write (initSim BLUEFIELD2_DEVICE_ID []) 66336 5).1 = 0 ∧
     (rshim_byte_acc_write (initSim BLUEFIELD2_DEVICE_ID [])
         66336 5).2.ctrace =
       (initSim BLUEFIELD2_DEVICE_ID []).ctrace ++
         [CrEv.rd RSH_BYTE_ACC_INTERLOCK,
          CrEv.wr RSH_BYTE_ACC_ADDR (66336 % 4294967296),
          CrEv.wr RSH_BYTE_ACC_CTL 1536,
          CrEv.wr RSH_BYTE_ACC_WDAT (5 % 4294967296),
          CrEv.rd RSH_BYTE_ACC_CTL,
          CrEv.wr RSH_BYTE_ACC_WDAT ((5 >>> 32) % 4294967296),
          CrEv.wr RSH_BYTE_ACC_INTERLOCK 0]) :=
  ⟨⟨by decide, by decide, by decide, by decide⟩,
   c9_write_sequence (initSim BLUEFIELD2_DEVICE_ID []) 66336 5
     (by decide) (by decide) (by decide) (by decide)⟩

/-- Claim C9 (counterexample): the CR-operation sequence the specification
describes (with a pending wait between the control write and the low WDAT
write, two pending waits in total) differs from the sequence the code
issues on a successful newer-revision 8-byte write. -/
theorem c9_counterexample :
    (rshim_byte_acc_write (initSim BLUEFIELD2_DEVICE_ID []) 66336 5).2.ctrace ≠
      c9_spec_write_sequence 66336 5 := by
  decide

theorem pcie_write_nonbf1_eq (s : Sim) (chan addr value : Nat)
    (hr : s.has_rshim = true) (hdev : s.hw.devId ≠ BLUEFIELD1_DEVICE_ID) :
    rshim_pcie_write s chan addr value =
      (if addr = RSH_BOOT_FIFO_DATA then
         rshim_boot_fifo_write s (RSH_CHANNEL_BASE chan + addr)
           (value % 18446744073709551616)
       else
         rshim_byte_acc_write s (RSH_CHANNEL_BASE chan + addr)
           (value % 18446744073709551616)) := by
  simp [rshim_pcie_write, hr, hdev]

/-- Claim C7 (amended): the dispatcher routes a boot-FIFO-data write to the
boot FIFO writer and any other offset to the byte access widget, but hands
the channel-rebased address channelBase(chan) + offset to BOTH paths; the
boot-FIFO special case lives one layer down, where the legacy gateway write
skips the extra RSHIM-channel rebase for addresses aliasing the boot FIFO
data register.  (The original "never channel-offset" is refuted by
c7_counterexample.) -/
theorem c7_routing (s : Sim) (chan addr value : Nat)
    (hr : s.has_rshim = true) :
    (s.hw.devId = BLUEFIELD1_DEVICE_ID → s.write_count ≠ 7 →
       rshim_pcie_write s chan addr value =
         (if addr = RSH_BOOT_FIFO_DATA then
            rshim_boot_fifo_write
              { s with write_count := (s.write_count + 1) % 256 }
              (RSH_CHANNEL_BASE chan + addr) (value % 18446744073709551616)
          else
            rshim_byte_acc_write
              { s with write_count := (s.write_count + 1) % 256 }
              (RSH_CHANNEL_BASE chan + addr) (value % 18446744073709551616))) ∧
    (s.hw.devId = BLUEFIELD2_DEVICE_ID →
       rshim_pcie_write s chan addr value =
         (if addr = RSH_BOOT_FIFO_DATA then
            rshim_boot_fifo_write s (RSH_CHANNEL_BASE chan + addr)
              (value % 18446744073709551616)
          else
            rshim_byte_acc_write s (RSH_CHANNEL_BASE chan + addr)
              (value % 18446744073709551616))) ∧
    (s.hw.devId = BLUEFIELD1_DEVICE_ID → s.faults = [] →
     s.hw.gwLockVal = 0 →
       (crspace_rsh_gw_write s addr value).2.hw.gwAddr =
         (if addr % 65536 ≠ RSH_BOOT_FIFO_DATA
          then addr + RSH_CHANNEL_BASE RSHIM_CHANNEL else addr) % 4294967296) :=
  ⟨fun hdev h7 => pcie_write_bf1_eq s chan addr value hr hdev h7,
   fun hdev => pcie_write_bf2_eq s chan addr value hr hdev,
   fun hdev hff hlock =>
     (bf1_gw_write_free_proj s addr value hdev hff hlock).2.2.2.2⟩

/-- Witness for c7_routing at a concrete legacy device and the boot-FIFO
offset. -/
theorem c7_routing_witness :
    (initSim BLUEFIELD1_DEVICE_ID []).has_rshim = true ∧
    (((initSim BLUEFIELD1_DEVICE_ID []).hw.devId = BLUEFIELD1_DEVICE_ID →
      (initSim BLUEFIELD1_DEVICE_ID []).write_count ≠ 7 →
        rshim_pcie_write (initSim BLUEFIELD1_DEVICE_ID []) 2
            RSH_BOOT_FIFO_DATA 5 =
          (if RSH_BOOT_FIFO_DATA = RSH_BOOT_FIFO_DATA then
             rshim_boot_fifo_write
               { initSim BLUEFIELD1_DEVICE_ID [] with
                 write_count :=
                   ((initSim BLUEFIELD1_DEVICE_ID []).write_count + 1) % 256 }
               (RSH_CHANNEL_BASE 2 + RSH_BOOT_FIFO_DATA)
               (5 % 18446744073709551616)
           else
             rshim_byte_acc_write
               { initSim BLUEFIELD1_DEVICE_ID [] with
                 write_count :=
                   ((initSim BLUEFIELD1_DEVICE_ID []).write_count + 1) % 256 }
               (RSH_CHANNEL_BASE 2 + RSH_BOOT_FIFO_DATA)
               (5 % 18446744073709551616))) ∧
     ((initSim BLUEFIELD1_DEVICE_ID []).hw.devId = BLUEFIELD2_DEVICE_ID →
        rshim_pcie_write (initSim BLUEFIELD1_DEVICE_ID []) 2
            RSH_BOOT_FIFO_DATA 5 =
          (if RSH_BOOT_FIFO_DATA = RSH_BOOT_FIFO_DATA then
             rshim_boot_fifo_write (initSim BLUEFIELD1_DEVICE_ID [])
               (RSH_CHANNEL_BASE 2 + RSH_BOOT_FIFO_DATA)
               (5 % 18446744073709551616)
           else
             rshim_byte_acc_write (initSim BLUEFIELD1_DEVICE_ID [])
               (RSH_CHANNEL_BASE 2 + RSH_BOOT_FIFO_DATA)
               (5 % 18446744073709551616))) ∧
     ((initSim BLUEFIELD1_DEVICE_ID []).hw.devId = BLUEFIELD1_DEVICE_ID →
      (initSim BLUEFIELD1_DEVICE_ID []).faults = [] →
      (initSim BLUEFIELD1_DEVICE_ID []).hw.gwLockVal = 0 →
        (crspace_rsh_gw_write (initSim BLUEFIELD1_DEVICE_ID [])
            RSH_BOOT_FIFO_DATA 5).2.hw.gwAddr =
          (if RSH_BOOT_FIFO_DATA % 65536 ≠ RSH_BOOT_FIFO_DATA
           then RSH_BOOT_FIFO_DATA + RSH_CHANNEL_BASE RSHIM_CHANNEL
           else RSH_BOOT_FIFO_DATA) % 4294967296)) :=
  ⟨by decide,
   c7_routing (initSim BLUEFIELD1_DEVICE_ID []) 2 RSH_BOOT_FIFO_DATA 5
     (by decide)⟩

/-- Claim C7 (counterexample): a dispatcher-level boot-FIFO write on
channel 2 issues its CR-space operations at channelBase(2) + bootFifoData,
a channel-offset address: the address the dispatcher passes down for the
boot FIFO is channel-offset. -/
theorem c7_counterexample :
    (rshim_pcie_write (initSim BLUEFIELD1_DEVICE_ID []) 2
        RSH_BOOT_FIFO_DATA 5).2.ctrace =
      [CrEv.wr (RSH_CHANNEL_BASE 2 + RSH_BOOT_FIFO_DATA) 5,
       CrEv.wr (RSH_CHANNEL_BASE 2 + RSH_BOOT_FIFO_DATA) 0] ∧
    RSH_CHANNEL_BASE 2 + RSH_BOOT_FIFO_DATA ≠ RSH_BOOT_FIFO_DATA := by
  decide

/-- Claim C5: on the legacy revision a dispatcher write that finds the
write counter at 7 first performs the drain read of the scratch register
and proceeds with counter 1; every dispatcher read resets the counter to
0; a write that finds the counter below 7 proceeds directly with the
counter incremented; and on the newer revision the dispatcher write never
performs a drain read (the state handed to the write path is untouched). -/
theorem c5_write_throttle (s : Sim) (chan addr value : Nat)
    (hr : s.has_rshim = true) :
    (s.hw.devId = BLUEFIELD1_DEVICE_ID → s.write_count = 7 →
       rshim_pcie_write s chan addr value =
         (if addr = RSH_BOOT_FIFO_DATA then
            rshim_boot_fifo_write
              { (rshim_pcie_read s chan RSH_SCRATCHPAD).2 with
                write_count := 1 }
              (RSH_CHANNEL_BASE chan + addr) (value % 18446744073709551616)
          else
            rshim_byte_acc_write
              { (rshim_pcie_read s chan RSH_SCRATCHPAD).2 with
                write_count := 1 }
              (RSH_CHANNEL_BASE chan + addr)
              (value % 18446744073709551616))) ∧
    ((rshim_pcie_read s chan addr).2.write_count = 0) ∧
    (s.hw.devId = BLUEFIELD1_DEVICE_ID → s.write_count ≠ 7 →
       rshim_pcie_write s chan addr value =
         (if addr = RSH_BOOT_FIFO_DATA then
            rshim_boot_fifo_write
              { s with write_count := (s.write_count + 1) % 256 }
              (RSH_CHANNEL_BASE chan + addr) (value % 18446744073709551616)
          else
            rshim_byte_acc_write
              { s with write_count := (s.write_count + 1) % 256 }
              (RSH_CHANNEL_BASE chan + addr)
              (value % 18446744073709551616))) ∧
    (s.hw.devId = BLUEFIELD2_DEVICE_ID →
       rshim_pcie_write s chan addr value =
         (if addr = RSH_BOOT_FIFO_DATA then
            rshim_boot_fifo_write s (RSH_CHANNEL_BASE chan + addr)
              (value % 18446744073709551616)
          else
            rshim_byte_acc_write s (RSH_CHANNEL_BASE chan + addr)
              (value % 18446744073709551616))) := by
  have hwc0 : ∀ a : Nat, (rshim_pcie_read s chan a).2.write_count = 0 := by
    intro a
    rw [pcie_read_eq s chan a hr]
    exact (frameB_byte_acc_read { s with write_count := 0 }
      (RSH_CHANNEL_BASE chan + a)).1
  refine ⟨?_, hwc0 addr, ?_, ?_⟩
  · intro hdev h7
    have e := pcie_write_bf1_drain_eq s chan addr value hr hdev h7
    rw [hwc0 RSH_SCRATCHPAD] at e
    norm_num at e
    exact e
  · intro hdev h7
    exact pcie_write_bf1_eq s chan addr value hr hdev h7
  · intro hdev
    exact pcie_write_bf2_eq s chan addr value hr hdev

/-- Witness for c5_write_throttle at a legacy device whose counter stands
at 7. -/
theorem c5_write_throttle_witness :
    { initSim BLUEFIELD1_DEVICE_ID [] with write_count := 7 }.has_rshim
      = true ∧
    (({ initSim BLUEFIELD1_DEVICE_ID [] with write_count := 7 }.hw.devId
        = BLUEFIELD1_DEVICE_ID →
      { initSim BLUEFIELD1_DEVICE_ID [] with write_count := 7 }.write_count
        = 7 →
        rshim_pcie_write
            { initSim BLUEFIELD1_DEVICE_ID [] with write_count := 7 }
            1 0 5 =
          (if (0 : Nat) = RSH_BOOT_FIFO_DATA then
             rshim_boot_fifo_write
               { (rshim_pcie_read
                    { initSim BLUEFIELD1_DEVICE_ID [] with write_count := 7 }
                    1 RSH_SCRATCHPAD).2 with write_count := 1 }
               (RSH_CHANNEL_BASE 1 + 0) (5 % 18446744073709551616)
           else
             rshim_byte_acc_write
               { (rshim_pcie_read
                    { initSim BLUEFIELD1_DEVICE_ID [] with write_count := 7 }
                    1 RSH_SCRATCHPAD).2 with write_count := 1 }
               (RSH_CHANNEL_BASE 1 + 0) (5 % 18446744073709551616))) ∧
     ((rshim_pcie_read
         { initSim BLUEFIELD1_DEVICE_ID [] with write_count := 7 }
         1 0).2.write_count = 0) ∧
     ({ initSim BLUEFIELD1_DEVICE_ID [] with write_count := 7 }.hw.devId
        = BLUEFIELD1_DEVICE_ID →
      { initSim BLUEFIELD1_DEVICE_ID [] with write_count := 7 }.write_count
        ≠ 7 →
        rshim_pcie_write
            { initSim BLUEFIELD1_DEVICE_ID [] with write_count := 7 }
            1 0 5 =
          (if (0 : Nat) = RSH_BOOT_FIFO_DATA then
             rshim_boot_fifo_write
               { { initSim BLUEFIELD1_DEVICE_ID [] with write_count := 7 } with
                 write_count :=
                   ({ initSim BLUEFIELD1_DEVICE_ID [] with
                      write_count := 7 }.write_count + 1) % 256 }
               (RSH_CHANNEL_BASE 1 + 0) (5 % 18446744073709551616)
           else
             rshim_byte_acc_write
               { { initSim BLUEFIELD1_DEVICE_ID [] with write_count := 7 } with
                 write_count :=
                   ({ initSim BLUEFIELD1_DEVICE_ID [] with
                      write_count := 7 }.write_count + 1) % 256 }
               (RSH_CHANNEL_BASE 1 + 0) (5 % 18446744073709551616))) ∧
     ({ initSim BLUEFIELD1_DEVICE_ID [] with write_count := 7 }.hw.devId
        = BLUEFIELD2_DEVICE_ID →
        rshim_pcie_write
            { initSim BLUEFIELD1_DEVICE_ID [] with write_count := 7 }
            1 0 5 =
          (if (0 : Nat) = RSH_BOOT_FIFO_DATA then
             rshim_boot_fifo_write
               { initSim BLUEFIELD1_DEVICE_ID [] with write_count := 7 }
               (RSH_CHANNEL_BASE 1 + 0) (5 % 18446744073709551616)
           else
             rshim_byte_acc_write
               { initSim BLUEFIELD1_DEVICE_ID [] with write_count := 7 }
               (RSH_CHANNEL_BASE 1 + 0) (5 % 18446744073709551616)))) :=
  ⟨by decide,
   c5_write_throttle
     { initSim BLUEFIELD1_DEVICE_ID [] with write_count := 7 } 1 0 5
     (by decide)⟩

/-! ## Stuck-register polling: the loops time out in bounded work -/

theorem gw_acquire_stuck_go (f : Nat) :
    ∀ s : Sim, s.faults = [] →
    s.hw.gwLockVal &&& TRIO_CR_GW_LOCK_ACQUIRED ≠ 0 →
    trio_cr_gw_lock_acquire_go f s =
      (-ETIMEDOUT,
       { s with
         hw := { s.hw with dataReg := s.hw.gwLockVal },
         faults := [], pciOps := s.pciOps + 2 * (f + 1) }) := by
  induction f with
  | zero =>
    intro s hff hbusy
    rw [trio_cr_gw_lock_acquire_go_zero, cap_rd_lock s hff]
    simp
  | succ f ih =>
    intro s hff hbusy
    rw [trio_cr_gw_lock_acquire_go_succ, cap_rd_lock s hff]
    have ihs := ih
      { s with
        hw := { s.hw with dataReg := s.hw.gwLockVal },
        faults := [], pciOps := s.pciOps + 2 } rfl hbusy
    dsimp only
    rw [if_neg (by simp), if_pos hbusy, ihs]
    have harith : s.pciOps + 2 + 2 * (f + 1) = s.pciOps + 2 * (f + 1 + 1) := by
      ring
    simp [harith]

theorem pending_stuck_go_bf2 (f : Nat) :
    ∀ s : Sim, s.hw.devId = BLUEFIELD2_DEVICE_ID → s.faults = [] →
    s.hw.ctlVal &&& RSH_BYTE_ACC_PENDING ≠ 0 →
    rshim_byte_acc_pending_wait_go f s =
      (-ETIMEDOUT,
       { s with
         hw := { s.hw with dataReg := s.hw.ctlVal },
         faults := [], pciOps := s.pciOps + 2 * (f + 1),
         ctrace := s.ctrace ++
           List.replicate (f + 1) (CrEv.rd RSH_BYTE_ACC_CTL) }) := by
  induction f with
  | zero =>
    intro s hdev hff hbusy
    rw [rshim_byte_acc_pending_wait_go_zero, bf2_rd_ctl s hdev hff]
    simp
  | succ f ih =>
    intro s hdev hff hbusy
    rw [rshim_byte_acc_pending_wait_go_succ, bf2_rd_ctl s hdev hff]
    have ihs := ih
      { s with
        hw := { s.hw with dataReg := s.hw.ctlVal },
        faults := [], pciOps := s.pciOps + 2,
        ctrace := s.ctrace ++ [CrEv.rd RSH_BYTE_ACC_CTL] } hdev rfl hbusy
    dsimp only
    rw [if_neg (by simp), if_pos hbusy, ihs]
    have harith : s.pciOps + 2 + 2 * (f + 1) = s.pciOps + 2 * (f + 1 + 1) := by
      ring
    simp [harith, List.append_assoc, List.replicate_succ]

theorem il_acquire_stuck_go_bf2 (f : Nat) :
    ∀ s : Sim, s.hw.devId = BLUEFIELD2_DEVICE_ID → s.faults = [] →
    s.hw.ilFree = false →
    rshim_byte_acc_lock_acquire_go (f + 1) s =
      (-ETIMEDOUT,
       { s with
         hw := { s.hw with dataReg := 0 },
         faults := [], pciOps := s.pciOps + 2 * (f + 1),
         ctrace := s.ctrace ++
           List.replicate (f + 1) (CrEv.rd RSH_BYTE_ACC_INTERLOCK) }) := by
  induction f with
  | zero =>
    intro s hdev hff hheld
    rw [rshim_byte_acc_lock_acquire_go_succ, bf2_rd_interlock_held s hdev hff hheld]
    simp [rshim_byte_acc_lock_acquire_go_zero]
  | succ f ih =>
    intro s hdev hff hheld
    rw [rshim_byte_acc_lock_acquire_go_succ, bf2_rd_interlock_held s hdev hff hheld]
    have ihs := ih
      { s with
        hw := { s.hw with dataReg := 0 },
        faults := [], pciOps := s.pciOps + 2,
        ctrace := s.ctrace ++ [CrEv.rd RSH_BYTE_ACC_INTERLOCK] } hdev rfl hheld
    dsimp only
    rw [if_neg (by simp), if_pos (by decide), ihs]
    have harith : s.pciOps + 2 + 2 * (f + 1) = s.pciOps + 2 * (f + 1 + 1) := by
      ring
    simp [harith, List.append_assoc, List.replicate_succ]

/-! ## Universal work bound for the gateway-lock polling loop -/

theorem pci_write_long_ops (s : Sim) (off v : Nat) :
    (pci_write_long s off v).2.pciOps = s.pciOps + 1 := by
  unfold pci_write_long
  dsimp only
  split_ifs <;> rfl

theorem pci_read_long_ops (s : Sim) (off : Nat) :
    (pci_read_long s off).2.pciOps = s.pciOps + 1 := by
  unfold pci_read_long
  dsimp only
  split_ifs <;> rfl

theorem pci_cap_read_ops (s : Sim) (off : Nat) :
    (pci_cap_read s off).2.pciOps ≤ s.pciOps + 2 := by
  unfold pci_cap_read
  rcases h1 : pci_write_long s MELLANOX_ADDR (off ||| MELLANOX_CAP_READ)
    with ⟨rc, t⟩
  have e1 : t.pciOps = s.pciOps + 1 := by
    simpa [h1] using pci_write_long_ops s MELLANOX_ADDR (off ||| MELLANOX_CAP_READ)
  simp only [h1]
  split_ifs
  · simp only []
    omega
  · rcases h2 : pci_read_long t MELLANOX_DATA with ⟨x, u⟩
    have e2 : u.pciOps = t.pciOps + 1 := by
      simpa [h2] using pci_read_long_ops t MELLANOX_DATA
    simp only [h2]
    omega

theorem pci_cap_write_ops (s : Sim) (off v : Nat) :
    (pci_cap_write s off v).2.pciOps ≤ s.pciOps + 2 := by
  unfold pci_cap_write
  rcases h1 : pci_write_long s MELLANOX_DATA v with ⟨rc, t⟩
  have e1 : t.pciOps = s.pciOps + 1 := by
    simpa [h1] using pci_write_long_ops s MELLANOX_DATA v
  simp only [h1]
  split_ifs
  · simp only []
    omega
  · have e2 := pci_write_long_ops t MELLANOX_ADDR off
    dsimp only
    omega
  · have e2 := pci_write_long_ops t MELLANOX_ADDR off
    dsimp only
    omega

theorem gw_acquire_go_ops (f : Nat) :
    ∀ s : Sim, (trio_cr_gw_lock_acquire_go f s).2.pciOps ≤
      s.pciOps + 2 * (f + 1) + 2 := by
  induction f with
  | zero =>
    intro s
    rw [trio_cr_gw_lock_acquire_go_zero]
    rcases h1 : pci_cap_read s TRIO_CR_GW_LOCK with ⟨⟨rc, v⟩, t⟩
    have e1 : t.pciOps ≤ s.pciOps + 2 := by
      simpa [h1] using pci_cap_read_ops s TRIO_CR_GW_LOCK
    simp only [h1]
    split_ifs <;> (simp only []; omega)
  | succ f ih =>
    intro s
    rw [trio_cr_gw_lock_acquire_go_succ]
    rcases h1 : pci_cap_read s TRIO_CR_GW_LOCK with ⟨⟨rc, v⟩, t⟩
    have e1 : t.pciOps ≤ s.pciOps + 2 := by
      simpa [h1] using pci_cap_read_ops s TRIO_CR_GW_LOCK
    simp only [h1]
    split_ifs
    · simp only []
      omega
    · have e2 := ih t
      omega
    · rcases h2 : pci_cap_write t TRIO_CR_GW_LOCK TRIO_CR_GW_LOCK_ACQUIRED
        with ⟨rc2, u⟩
      have e2 : u.pciOps ≤ t.pciOps + 2 := by
        simpa [h2] using pci_cap_write_ops t TRIO_CR_GW_LOCK TRIO_CR_GW_LOCK_ACQUIRED
      simp only [h2]
      omega
    · rcases h2 : pci_cap_write t TRIO_CR_GW_LOCK TRIO_CR_GW_LOCK_ACQUIRED
        with ⟨rc2, u⟩
      have e2 : u.pciOps ≤ t.pciOps + 2 := by
        simpa [h2] using pci_cap_write_ops t TRIO_CR_GW_LOCK TRIO_CR_GW_LOCK_ACQUIRED
      simp only [h2]
      omega

/-- Claim C6: the polling loops are bounded.  With a register stuck busy or
held, each loop returns Timeout after its fixed retry budget of polls
(exact PCI access counts given), and for every register behaviour and
fault schedule whatsoever the gateway-lock acquire performs at most
2 * (LOCK_RETRY_CNT + 1) + 2 PCI accesses: no loop ever runs unboundedly. -/
theorem c6_polling_bounded :
    (∀ s : Sim, s.faults = [] →
       s.hw.gwLockVal &&& TRIO_CR_GW_LOCK_ACQUIRED ≠ 0 →
       (trio_cr_gw_lock_acquire s).1 = -ETIMEDOUT ∧
       (trio_cr_gw_lock_acquire s).2.pciOps =
         s.pciOps + 2 * (LOCK_RETRY_CNT + 1)) ∧
    (∀ s : Sim, s.hw.devId = BLUEFIELD2_DEVICE_ID → s.faults = [] →
       s.hw.ctlVal &&& RSH_BYTE_ACC_PENDING ≠ 0 →
       (rshim_byte_acc_pending_wait s).1 = -ETIMEDOUT ∧
       (rshim_byte_acc_pending_wait s).2.pciOps =
         s.pciOps + 2 * (LOCK_RETRY_CNT + 1)) ∧
    (∀ s : Sim, s.hw.devId = BLUEFIELD2_DEVICE_ID → s.faults = [] →
       s.hw.ilFree = false →
       (rshim_byte_acc_lock_acquire s).1 = -ETIMEDOUT ∧
       (rshim_byte_acc_lock_acquire s).2.pciOps =
         s.pciOps + 2 * LOCK_RETRY_CNT) ∧
    (∀ s : Sim, (trio_cr_gw_lock_acquire s).2.pciOps ≤
       s.pciOps + 2 * (LOCK_RETRY_CNT + 1) + 2) := by
  refine ⟨?_, ?_, ?_, ?_⟩
  · intro s hff hbusy
    rw [trio_cr_gw_lock_acquire, gw_acquire_stuck_go LOCK_RETRY_CNT s hff hbusy]
    exact ⟨rfl, rfl⟩
  · intro s hdev hff hbusy
    rw [rshim_byte_acc_pending_wait,
      pending_stuck_go_bf2 LOCK_RETRY_CNT s hdev hff hbusy]
    exact ⟨rfl, rfl⟩
  · intro s hdev hff hheld
    rw [show rshim_byte_acc_lock_acquire s
          = rshim_byte_acc_lock_acquire_go (999 + 1) s from rfl,
      il_acquire_stuck_go_bf2 999 s hdev hff hheld]
    exact ⟨rfl, rfl⟩
  · intro s
    exact gw_acquire_go_ops LOCK_RETRY_CNT s

/-- Witness for c6_polling_bounded on concrete stuck devices. -/
theorem c6_polling_bounded_witness :
    (({ initSim BLUEFIELD1_DEVICE_ID [] with
        hw := { initHw BLUEFIELD1_DEVICE_ID with
                gwLockVal := 2147483648 } }.faults = []) ∧
     ({ initSim BLUEFIELD1_DEVICE_ID [] with
        hw := { initHw BLUEFIELD1_DEVICE_ID with
                gwLockVal := 2147483648 } }.hw.gwLockVal &&&
        TRIO_CR_GW_LOCK_ACQUIRED ≠ 0)) ∧
    ((trio_cr_gw_lock_acquire
        { initSim BLUEFIELD1_DEVICE_ID [] with
          hw := { initHw BLUEFIELD1_DEVICE_ID with
                  gwLockVal := 2147483648 } }).1 = -ETIMEDOUT ∧
     (trio_cr_gw_lock_acquire
        { initSim BLUEFIELD1_DEVICE_ID [] with
          hw := { initHw BLUEFIELD1_DEVICE_ID with
                  gwLockVal := 2147483648 } }).2.pciOps =
       { initSim BLUEFIELD1_DEVICE_ID [] with
         hw := { initHw BLUEFIELD1_DEVICE_ID with
                 gwLockVal := 2147483648 } }.pciOps +
         2 * (LOCK_RETRY_CNT + 1)) ∧
    ((rshim_byte_acc_lock_acquire
        { initSim BLUEFIELD2_DEVICE_ID [] with
          hw := { initHw BLUEFIELD2_DEVICE_ID with
                  ilFree := false } }).1 = -ETIMEDOUT ∧
     (rshim_byte_acc_lock_acquire
        { initSim BLUEFIELD2_DEVICE_ID [] with
          hw := { initHw BLUEFIELD2_DEVICE_ID with
                  ilFree := false } }).2.pciOps =
       { initSim BLUEFIELD2_DEVICE_ID [] with
         hw := { initHw BLUEFIELD2_DEVICE_ID with
                 ilFree := false } }.pciOps + 2 * LOCK_RETRY_CNT) :=
  ⟨⟨by decide, by decide⟩,
   c6_polling_bounded.1
     { initSim BLUEFIELD1_DEVICE_ID [] with
       hw := { initHw BLUEFIELD1_DEVICE_ID with gwLockVal := 2147483648 } }
     (by decide) (by decide),
   c6_polling_bounded.2.2.1
     { initSim BLUEFIELD2_DEVICE_ID [] with
       hw := { initHw BLUEFIELD2_DEVICE_ID with ilFree := false } }
     (by decide) (by decide) (by decide)⟩

/-! ## Dispatcher-level read-back and counter lemmas -/

/-- A dispatcher read on an idle fault-free legacy device returns the
64-bit word stored at the channel-rebased address. -/
theorem pcie_read_value_bf1 (s : Sim) (chan addr value : Nat)
    (hdev : s.hw.devId = BLUEFIELD1_DEVICE_ID) (hff : s.faults = [])
    (hr : s.has_rshim = true) (hlock : s.hw.gwLockVal = 0)
    (hc32 : s.hw.ctlVal < 4294967296)
    (hp : s.hw.ctlVal &&& RSH_BYTE_ACC_PENDING = 0)
    (hmem : s.hw.mem64 ((RSH_CHANNEL_BASE chan + addr) % 4294967296) = value)
    (hv : value < 18446744073709551616) :
    rshim_pcie_read s chan addr =
      ((0, value), (rshim_pcie_read s chan addr).2) := by
  have hm : ({ s with write_count := 0 } : Sim).hw.mem64
      ((RSH_CHANNEL_BASE chan + addr) % 4294967296) = value := hmem
  have e := bf1_byte_acc_read_ok { s with write_count := 0 }
    (RSH_CHANNEL_BASE chan + addr) hdev hff hlock hc32 hp
  rw [hm, split_join hv] at e
  rw [pcie_read_eq s chan addr hr, e]

/-- A dispatcher read on an idle fault-free newer-revision device returns
the 64-bit word stored at the channel-rebased address. -/
theorem pcie_read_value_bf2 (s : Sim) (chan addr value : Nat)
    (hdev : s.hw.devId = BLUEFIELD2_DEVICE_ID) (hff : s.faults = [])
    (hr : s.has_rshim = true) (hil : s.hw.ilFree = true)
    (hp : s.hw.ctlVal &&& RSH_BYTE_ACC_PENDING = 0)
    (hmem : s.hw.mem64 ((RSH_CHANNEL_BASE chan + addr) % 4294967296) = value)
    (hv : value < 18446744073709551616) :
    rshim_pcie_read s chan addr =
      ((0, value), (rshim_pcie_read s chan addr).2) := by
  have hm : ({ s with write_count := 0 } : Sim).hw.mem64
      ((RSH_CHANNEL_BASE chan + addr) % 4294967296) = value := hmem
  have e := bf2_byte_acc_read_ok { s with write_count := 0 }
    (RSH_CHANNEL_BASE chan + addr) hdev hff hil hp
  rw [hm, split_join hv] at e
  rw [pcie_read_eq s chan addr hr, e]

theorem runOp_wc (s : Sim) (op : BackendOp) (h : s.write_count ≤ 7) :
    (runOp s op).write_count ≤ 7 := by
  cases op with
  | rd chan addr =>
    show (rshim_pcie_read s chan addr).2.write_count ≤ 7
    by_cases hr : s.has_rshim = true
    · rw [pcie_read_eq s chan addr hr]
      have h0 : (rshim_byte_acc_read { s with write_count := 0 }
          (RSH_CHANNEL_BASE chan + addr)).2.write_count =
          ({ s with write_count := 0 } : Sim).write_count :=
        (frameB_byte_acc_read _ _).1
      rw [h0]
      exact Nat.zero_le 7
    · have hr2 : s.has_rshim = false := by
        cases hsr : s.has_rshim
        · rfl
        · exact absurd hsr hr
      rw [pcie_read_nodev s chan addr hr2]
      exact h
  | wr chan addr value =>
    show (rshim_pcie_write s chan addr value).2.write_count ≤ 7
    by_cases hr : s.has_rshim = true
    · by_cases hdev : s.hw.devId = BLUEFIELD1_DEVICE_ID
      · by_cases h7 : s.write_count = 7
        · rw [pcie_write_bf1_drain_eq s chan addr value hr hdev h7]
          have h0 : (rshim_pcie_read s chan RSH_SCRATCHPAD).2.write_count
              = 0 := by
            rw [pcie_read_eq s chan RSH_SCRATCHPAD hr]
            exact (frameB_byte_acc_read _ _).1
          split_ifs
          · rw [(frameB_boot_fifo_write _ _ _).1]
            dsimp only
            omega
          · rw [(frameB_byte_acc_write _ _ _).1]
            dsimp only
            omega
        · rw [pcie_write_bf1_eq s chan addr value hr hdev h7]
          split_ifs
          · rw [(frameB_boot_fifo_write _ _ _).1]
            dsimp only
            omega
          · rw [(frameB_byte_acc_write _ _ _).1]
            dsimp only
            omega
      · rw [pcie_write_nonbf1_eq s chan addr value hr hdev]
        split_ifs
        · rw [(frameB_boot_fifo_write _ _ _).1]
          exact h
        · rw [(frameB_byte_acc_write _ _ _).1]
          exact h
    · have hr2 : s.has_rshim = false := by
        cases hsr : s.has_rshim
        · rfl
        · exact absurd hsr hr
      rw [pcie_write_nodev s chan addr value hr2]
      exact h

/-- Claim C10: along every sequence of dispatcher calls the per-device
write counter stays in 0..7: reads set it to 0, legacy writes increment
below 7 or drain first, the newer revision never touches it, so the 8-bit
field never wraps. -/
theorem c10_write_counter_bounded (ops : List BackendOp) (s : Sim)
    (h : s.write_count ≤ 7) : (runOps s ops).write_count ≤ 7 := by
  induction ops generalizing s with
  | nil => exact h
  | cons op ops ih => exact ih (runOp s op) (runOp_wc s op h)

/-- Witness for c10_write_counter_bounded on a fresh legacy device and a
two-call sequence. -/
theorem c10_write_counter_bounded_witness :
    (initSim BLUEFIELD1_DEVICE_ID []).write_count ≤ 7 ∧
    (runOps (initSim BLUEFIELD1_DEVICE_ID [])
       [BackendOp.wr 1 0 5, BackendOp.rd 1 0]).write_count ≤ 7 :=
  ⟨by decide,
   c10_write_counter_bounded [BackendOp.wr 1 0 5, BackendOp.rd 1 0]
     (initSim BLUEFIELD1_DEVICE_ID []) (by decide)⟩

/-- Claim C1: writing a 64-bit value through the dispatcher and reading the
same (channel, offset) back returns exactly that value, on both device
revisions, against the simulated register file. -/
theorem c1_roundtrip (chan addr value : Nat)
    (hb : addr ≠ RSH_BOOT_FIFO_DATA)
    (hv : value < 18446744073709551616) :
    (∃ s1 s2,
       rshim_pcie_write (initSim BLUEFIELD1_DEVICE_ID []) chan addr value =
         (0, s1) ∧
       rshim_pcie_read s1 chan addr = ((0, value), s2)) ∧
    (∃ s1 s2,
       rshim_pcie_write (initSim BLUEFIELD2_DEVICE_ID []) chan addr value =
         (0, s1) ∧
       rshim_pcie_read s1 chan addr = ((0, value), s2)) := by
  constructor
  · have e1 := pcie_write_bf1_eq (initSim BLUEFIELD1_DEVICE_ID []) chan addr
      value rfl rfl (by decide)
    rw [if_neg hb, Nat.mod_eq_of_lt hv] at e1
    simp only [initSim, initHw, bf1_byte_acc_write_ok] at e1
    refine ⟨_, _, e1,
      pcie_read_value_bf1 _ chan addr value ?_ ?_ ?_ ?_ ?_ ?_ ?_ hv⟩
    · rfl
    · rfl
    · rfl
    · rfl
    · simp
    · simp only [RSH_BYTE_ACC_PENDING]
      decide
    · simp [Function.update_same, split_join hv]
  · have e1 := pcie_write_bf2_eq (initSim BLUEFIELD2_DEVICE_ID []) chan addr
      value rfl rfl
    rw [if_neg hb, Nat.mod_eq_of_lt hv] at e1
    simp only [initSim, initHw, bf2_byte_acc_write_ok] at e1
    refine ⟨_, _, e1,
      pcie_read_value_bf2 _ chan addr value ?_ ?_ ?_ ?_ ?_ ?_ hv⟩
    · rfl
    · rfl
    · rfl
    · rfl
    · simp only [RSH_BYTE_ACC_PENDING]
      decide
    · simp [Function.update_same, split_join hv]

/-- Witness for c1_roundtrip at a concrete channel, offset and value. -/
theorem c1_roundtrip_witness :
    ((0 : Nat) ≠ RSH_BOOT_FIFO_DATA ∧
     (123456789123 : Nat) < 18446744073709551616) ∧
    ((∃ s1 s2,
        rshim_pcie_write (initSim BLUEFIELD1_DEVICE_ID []) 1 0 123456789123 =
          (0, s1) ∧
        rshim_pcie_read s1 1 0 = ((0, 123456789123), s2)) ∧
     (∃ s1 s2,
        rshim_pcie_write (initSim BLUEFIELD2_DEVICE_ID []) 1 0 123456789123 =
          (0, s1) ∧
        rshim_pcie_read s1 1 0 = ((0, 123456789123), s2))) :=
  ⟨⟨by decide, by decide⟩,
   c1_roundtrip 1 0 123456789123 (by decide) (by decide)⟩

end RshimPcieLf







